import Mathlib

/-!
# pansou HTTP gateway (`api/handler.go`, `api/router.go`)

A shallow embedding of the request handlers of the gateway and the properties
of them that the specification states.

Conventions of the embedding

* A Go `string` is a Lean `String`; the helpers of package `strings` that the
  handlers call are written on the list of runes of the string.
* A Go slice `[]string` is `Option (List String)`: `none` is the `nil` slice,
  `some []` an empty non-nil slice.  A Go `map[string]interface{}` is
  `Option (List (String × V))` in the same way, `V` standing for `interface{}`.
* Collaborators that live outside `api/` (the JSON decoder, `util.StringToInt`,
  the configuration, the search engine, `net/url`, the HTTP client) are fields of
  an environment record that the handler receives.
* A handler returns the response it writes together with the calls it made to
  the collaborator whose use the specification constrains (the search engine,
  the outbound HTTP client).
-/

namespace Pansou

/-! ## Go values -/

/-- A Go slice of strings: `none` is `nil`. -/
abbrev GoSlice := Option (List String)

/-- A Go `map[string]interface{}`: `none` is the `nil` map. -/
abbrev GoMap (V : Type) := Option (List (String × V))

/-- Go `len` on a slice (`len(nil) = 0`). -/
def GoSlice.len : GoSlice → Nat
  | none => 0
  | some xs => xs.length

/-- Go `append(s, x)`: the result is never `nil`. -/
def GoSlice.append : GoSlice → String → GoSlice
  | none, x => some [x]
  | some xs, x => some (xs ++ [x])

/-- Go `make(map[string]interface{})`: an empty map that is not `nil`. -/
def GoMap.make (V : Type) : GoMap V := some []

/-- A request or response body, `[]byte`. -/
abbrev Bytes := List UInt8

/-! ## Package `strings` and `unicode` -/

/-- Go `unicode.IsSpace`: the Latin-1 spaces and the `White_Space` table. -/
def unicodeIsSpace (c : Char) : Bool :=
  let n := c.toNat
  (0x09 ≤ n && n ≤ 0x0D) || n == 0x20 || n == 0x85 || n == 0xA0 || n == 0x1680 ||
  (0x2000 ≤ n && n ≤ 0x200A) || n == 0x2028 || n == 0x2029 || n == 0x202F ||
  n == 0x205F || n == 0x3000

/-- Go `strings.TrimSpace`: leading and trailing white space removed. -/
def TrimSpace (s : String) : String :=
  ⟨((s.data.dropWhile unicodeIsSpace).reverse.dropWhile unicodeIsSpace).reverse⟩

/-- The pieces of a rune list between the occurrences of `sep`. -/
def splitRunes (sep : Char) : List Char → List (List Char)
  | [] => [[]]
  | c :: cs =>
    if c = sep then [] :: splitRunes sep cs
    else
      match splitRunes sep cs with
      | [] => [[c]]
      | p :: ps => (c :: p) :: ps

/-- Go `strings.Split(s, sep)` for a separator of one rune, which is how the
handlers call it (`","`): `n` separators give `n + 1` pieces, the empty string
gives one empty piece. -/
def Split (s : String) (sep : Char) : List String :=
  (splitRunes sep s.data).map String.mk

/-- Go `unicode.ToLower` as far as a comparison with an ASCII string can see:
`A`–`Z` go to `a`–`z`, and the two runes outside ASCII whose lower case is an
ASCII letter go there (U+0130 to `i`, U+212A to `k`).  Every other rune outside
ASCII has a lower case outside ASCII and is left as it is. -/
def unicodeToLower (c : Char) : Char :=
  if 'A'.toNat ≤ c.toNat ∧ c.toNat ≤ 'Z'.toNat then Char.ofNat (c.toNat + 32)
  else if c.toNat = 0x130 then 'i'
  else if c.toNat = 0x212A then 'k'
  else c

/-- Go `strings.ToLower`. -/
def ToLower (s : String) : String := ⟨s.data.map unicodeToLower⟩

/-- Go `strings.HasPrefix`. -/
def HasPrefix (s pre : String) : Bool := pre.data.isPrefixOf s.data

/-- Go `strings.HasSuffix`. -/
def HasSuffix (s suf : String) : Bool := suf.data.isSuffixOf s.data

/-- The runes left after the first `n` bytes of the UTF-8 form of a string. -/
def dropBytes : Nat → List Char → List Char
  | 0, cs => cs
  | _ + 1, [] => []
  | n + 1, c :: cs => dropBytes (n + 1 - c.utf8Size) cs

/-- Go `s[n:]`, a slice by byte offset.  The embedding is exact when the offset
falls on a rune boundary, which `sliceFrom_of_bearer` shows for the one use. -/
def sliceFrom (s : String) (n : Nat) : String := ⟨dropBytes n s.data⟩

/-! ## The gin context -/

/-- What the handlers read of a `*gin.Context`. -/
structure Context where
  /-- The request method, `c.Request.Method`. -/
  Method : String
  /-- The parsed URL query, `c.Request.URL.Query()`, as key and value pairs in
  the order of the URL. -/
  QueryValues : List (String × String)
  /-- The outcome of `c.GetRawData()`: the body, or the reader's failure text. -/
  RawData : Except String Bytes

/-- The method name `http.MethodGet`. -/
def MethodGet : String := "GET"

/-- Gin `c.Query(key)`: the first value of the key, `""` when it has none. -/
def Context.Query (c : Context) (key : String) : String :=
  match c.QueryValues.find? (fun kv => kv.1 == key) with
  | some kv => kv.2
  | none => ""

/-- Go `c.Request.URL.Query().Has(key)`. -/
def Context.Has (c : Context) (key : String) : Bool :=
  c.QueryValues.any (fun kv => kv.1 == key)

/-- Gin `c.DefaultQuery(key, dflt)`: the first value of the key when the key is
present, the default otherwise. -/
def Context.DefaultQuery (c : Context) (key dflt : String) : String :=
  match c.QueryValues.find? (fun kv => kv.1 == key) with
  | some kv => kv.2
  | none => dflt

/-! ## `SearchHandler` -/

/-- Modelled from the spec: the declaration of `model.SearchRequest`, which is
in package `pansou/model`; the fields are those the handler reads and writes. -/
structure SearchRequest (V : Type) where
  Keyword : String := ""
  Channels : GoSlice := none
  Concurrency : Int := 0
  ForceRefresh : Bool := false
  ResultType : String := ""
  SourceType : String := ""
  Plugins : GoSlice := none
  CloudTypes : GoSlice := none
  Ext : GoMap V := none
  deriving DecidableEq

/-- The arguments of one call of `searchService.Search`, in the order the
handler passes them. -/
structure SearchCall (V : Type) where
  keyword : String
  channels : GoSlice
  concurrency : Int
  forceRefresh : Bool
  resultType : String
  sourceType : String
  plugins : GoSlice
  cloudTypes : GoSlice
  ext : GoMap V
  deriving DecidableEq

/-- The collaborators of `SearchHandler`. -/
structure SearchEnv (V R : Type) where
  /-- The configuration value `config.AppConfig.DefaultChannels`. -/
  DefaultChannels : GoSlice
  /-- The helper `util.StringToInt`. -/
  StringToInt : String → Int
  /-- The call `jsonutil.Unmarshal([]byte(extStr), &ext)` on a `nil` map: the
  map afterwards, or the decoder's failure text. -/
  UnmarshalExt : String → Except String (GoMap V)
  /-- The call `jsonutil.Unmarshal(data, &req)` on a zero request: the request
  afterwards, or the decoder's failure text. -/
  UnmarshalRequest : Bytes → Except String (SearchRequest V)
  /-- The engine, `searchService.Search`: a result or the engine's error text. -/
  Search : SearchCall V → Except String R

/-- The body `SearchHandler` writes. -/
inductive SearchBody (R : Type) where
  /-- The JSON form of `model.NewErrorResponse(code, message)`. -/
  | error (code : Nat) (message : String)
  /-- The JSON form of `model.NewSuccessResponse(result)`. -/
  | success (result : R)
  deriving DecidableEq

/-- What `SearchHandler` did: the calls of `searchService.Search` it made, and
the status and body of the response. -/
structure SearchOutcome (V R : Type) where
  searchCalls : List (SearchCall V)
  status : Nat
  body : SearchBody R
  deriving DecidableEq

/-- The loop of lines 46–52 (and 87–93, 107–113): the trimmed non-empty pieces
are appended, in order, to a slice that starts `nil`. -/
def appendTrimmed (parts : List String) : GoSlice :=
  parts.foldl
    (fun acc part =>
      let trimmed := TrimSpace part
      if trimmed ≠ "" then acc.append trimmed else acc)
    none

/-- Lines 45–53: a list parameter is parsed only when it is neither empty nor
one space. -/
def parseListParam (str : String) : GoSlice :=
  if str ≠ "" ∧ str ≠ " " then appendTrimmed (Split str ',') else none

/-- Lines 120–137, the `ext` parameter of a GET: the map, or the text of the
400 response. -/
def parseExt {V R : Type} (env : SearchEnv V R) (extStr : String) : Except String (GoMap V) :=
  let decoded : Except String (GoMap V) :=
    if extStr ≠ "" ∧ extStr ≠ " " then
      if extStr = "\x7b\x7d" then .ok (GoMap.make V)
      else
        match env.UnmarshalExt extStr with
        | .error err => .error ("无效的ext参数格式: " ++ err)
        | .ok ext => .ok ext
    else .ok none
  match decoded with
  | .error msg => .error msg
  | .ok ext => if ext.isNone then .ok (GoMap.make V) else .ok ext

/-- Lines 36–149, the GET branch: the request built from the URL query, or the
text of the 400 response. -/
def parseGet {V R : Type} (env : SearchEnv V R) (c : Context) : Except String (SearchRequest V) :=
  let keyword := c.Query "kw"
  let channels := parseListParam (c.Query "channels")
  let concStr := c.Query "conc"
  let concurrency : Int := if concStr ≠ "" ∧ concStr ≠ " " then env.StringToInt concStr else 0
  let refreshStr := c.Query "refresh"
  let forceRefresh : Bool := decide (refreshStr ≠ "" ∧ refreshStr ≠ " " ∧ refreshStr = "true")
  let resultType := c.Query "res"
  let resultType := if resultType = "" ∨ resultType = " " then "merge" else resultType
  let sourceType := c.Query "src"
  let sourceType := if sourceType = "" ∨ sourceType = " " then "all" else sourceType
  let plugins : GoSlice := if c.Has "plugins" then parseListParam (c.Query "plugins") else none
  let cloudTypes : GoSlice :=
    if c.Has "cloud_types" then parseListParam (c.Query "cloud_types") else none
  match parseExt env (c.Query "ext") with
  | .error msg => .error msg
  | .ok ext =>
    .ok { Keyword := keyword, Channels := channels, Concurrency := concurrency,
          ForceRefresh := forceRefresh, ResultType := resultType, SourceType := sourceType,
          Plugins := plugins, CloudTypes := cloudTypes, Ext := ext }

/-- Lines 150–162, the branch of every other method: the request decoded from
the body, or the text of the 400 response. -/
def parseBody {V R : Type} (env : SearchEnv V R) (c : Context) : Except String (SearchRequest V) :=
  match c.RawData with
  | .error err => .error ("读取请求数据失败: " ++ err)
  | .ok data =>
    match env.UnmarshalRequest data with
    | .error err => .error ("无效的请求参数: " ++ err)
    | .ok req => .ok req

/-- Lines 165–167: no channels means the configured default channels. -/
def defaultChannels {V : Type} (dflt : GoSlice) (req : SearchRequest V) : SearchRequest V :=
  if req.Channels.len = 0 then { req with Channels := dflt } else req

/-- Lines 170–175: no result type, and the alias `merge`, mean `merged_by_type`. -/
def defaultResultType {V : Type} (req : SearchRequest V) : SearchRequest V :=
  if req.ResultType = "" then { req with ResultType := "merged_by_type" }
  else if req.ResultType = "merge" then { req with ResultType := "merged_by_type" }
  else req

/-- Lines 178–180: no source type means `all`. -/
def defaultSourceType {V : Type} (req : SearchRequest V) : SearchRequest V :=
  if req.SourceType = "" then { req with SourceType := "all" } else req

/-- Lines 183–192: `tg` ignores the plugins, `plugin` ignores the channels, and
`all` turns an empty plugin slice into `nil`. -/
def mutualExclusion {V : Type} (req : SearchRequest V) : SearchRequest V :=
  if req.SourceType = "tg" then { req with Plugins := none }
  else if req.SourceType = "plugin" then { req with Channels := none }
  else if req.SourceType = "all" then
    if req.Plugins = none ∨ req.Plugins.len = 0 then { req with Plugins := none } else req
  else req

/-- Lines 164–192: the defaults and the mutual exclusion of the source types,
in the order of the source. -/
def applyDefaults {V : Type} (dflt : GoSlice) (req : SearchRequest V) : SearchRequest V :=
  mutualExclusion (defaultSourceType (defaultResultType (defaultChannels dflt req)))

/-- The arguments of line 199. -/
def SearchRequest.toCall {V : Type} (req : SearchRequest V) : SearchCall V :=
  { keyword := req.Keyword, channels := req.Channels, concurrency := req.Concurrency,
    forceRefresh := req.ForceRefresh, resultType := req.ResultType,
    sourceType := req.SourceType, plugins := req.Plugins, cloudTypes := req.CloudTypes,
    ext := req.Ext }

/-- Lines 199–211: the engine is called once and its answer is written. -/
def dispatch {V R : Type} (env : SearchEnv V R) (req : SearchRequest V) : SearchOutcome V R :=
  let call := req.toCall
  match env.Search call with
  | .error err => { searchCalls := [call], status := 500, body := .error 500 ("搜索失败: " ++ err) }
  | .ok result => { searchCalls := [call], status := 200, body := .success result }

/-- Lines 36–162: the request as the client sent it, read from the URL query
for a GET and from the body otherwise, or the text of the 400 response. -/
def parseRequest {V R : Type} (env : SearchEnv V R) (c : Context) :
    Except String (SearchRequest V) :=
  if c.Method = MethodGet then parseGet env c else parseBody env c

/-- The handler `SearchHandler` (lines 31–212). -/
def SearchHandler {V R : Type} (env : SearchEnv V R) (c : Context) : SearchOutcome V R :=
  match parseRequest env c with
  | .error msg => { searchCalls := [], status := 400, body := .error 400 msg }
  | .ok req => dispatch env (applyDefaults env.DefaultChannels req)

/-! ## `VerifyTokenHandler` -/

/-- The collaborators of `VerifyTokenHandler`. -/
structure TokenEnv where
  /-- Go `os.Getenv`. -/
  Getenv : String → String
  /-- The field `req.Token` after `c.ShouldBind(&req)`, whose error the handler
  discards: the token of the JSON body or of the form, `""` when there is none. -/
  ShouldBindToken : Context → String

/-- The response `c.JSON(status, gin.H{"code": code, "message": message})`. -/
structure TokenResponse where
  status : Nat
  code : Nat
  message : String
  deriving DecidableEq, Repr

/-- Lines 229–231: the submitted token is the one of the body or form and, when
that is empty, the query parameter `token`. -/
def submittedToken (env : TokenEnv) (c : Context) : String :=
  let token := env.ShouldBindToken c
  if token = "" then c.Query "token" else token

/-- The handler `VerifyTokenHandler` (lines 228–244). -/
def VerifyTokenHandler (env : TokenEnv) (c : Context) : TokenResponse :=
  let t := TrimSpace (submittedToken env c)
  let t := if HasPrefix (ToLower t) "bearer " then TrimSpace (sliceFrom t 7) else t
  let expected := env.Getenv "TOKEN"
  if expected = "" then
    { status := 401, code := 401, message := "server token not configured" }
  else if t = expected then
    { status := 200, code := 0, message := "ok" }
  else
    { status := 401, code := 401, message := "invalid token" }

/-- The lower case of an ASCII capital letter; every other rune is kept. -/
def asciiLower (c : Char) : Char :=
  if 'A'.toNat ≤ c.toNat ∧ c.toNat ≤ 'Z'.toNat then Char.ofNat (c.toNat + 32) else c

/-- The token the specification compares with the secret, in its words: white
space trimmed, one `Bearer ` prefix removed when the token starts with it in any
letter case, white space trimmed again. -/
def bearerStripped (token : String) : String :=
  let t := TrimSpace token
  if (t.data.take 7).map asciiLower = "bearer ".data then TrimSpace ⟨t.data.drop 7⟩ else t

/-! ## `ImageProxyHandler` -/

/-- The fields of a `*url.URL` (package `net/url`). -/
structure URL where
  Scheme : String := ""
  /-- The userinfo: a user name and, when there is one, a password. -/
  User : Option (String × Option String) := none
  /-- The field `Host`: host or host:port. -/
  Host : String := ""
  Path : String := ""
  RawQuery : String := ""
  Fragment : String := ""
  deriving DecidableEq, Repr

/-- Go `(*URL).IsAbs`: the scheme is not empty. -/
def URL.IsAbs (u : URL) : Bool := decide (u.Scheme ≠ "")

/-- An outbound request as the handler hands it to the HTTP client. -/
structure OutboundRequest where
  method : String
  target : String
  /-- The headers set with `req.Header.Set`, in the order of the calls. -/
  headers : List (String × String)
  deriving DecidableEq, Repr

/-- What a handler reads of the upstream `*http.Response`. -/
structure UpstreamResponse where
  StatusCode : Nat
  /-- The status line, `resp.Status`. -/
  Status : String
  /-- The header value `resp.Header.Get("Content-Type")`. -/
  ContentType : String
  /-- The bytes `io.ReadAll(resp.Body)` returns. -/
  Body : Bytes
  /-- The error `io.ReadAll(resp.Body)` returns, when it returns one. -/
  ReadError : Option String
  deriving DecidableEq, Repr

/-- The collaborators of `ImageProxyHandler`. -/
structure ImageEnv where
  /-- Go `url.Parse`: the URL, or the parser's failure text. -/
  Parse : String → Except String URL
  /-- Go `(*URL).String`. -/
  URLString : URL → String
  /-- Go `http.NewRequest(method, url, nil)`: the failure text when it fails. -/
  NewRequest : String → String → Option String
  /-- The shared client, `util.GetHTTPClient().Do`: the response, or the
  transport's failure text. -/
  Do : OutboundRequest → Except String UpstreamResponse
  /-- Go `mime.TypeByExtension`. -/
  TypeByExtension : String → String

/-- What `ImageProxyHandler` did: the requests it handed to the HTTP client,
and the status, headers and body of the response. -/
structure ImageOutcome where
  outbound : List OutboundRequest
  status : Nat
  headers : List (String × String) := []
  body : Bytes := []
  deriving DecidableEq, Repr

/-- Gin `c.Status(code)` as the last act of a handler: no header, no body, and
no request went out. -/
def bareStatus (code : Nat) : ImageOutcome := { outbound := [], status := code }

/-- The scan of Go `path.Ext`, from the last rune backwards: `rev` is what is
left to scan, `acc` the runes already passed. -/
def extScan : List Char → List Char → List Char
  | [], _ => []
  | c :: rev, acc =>
    if c = '/' then [] else if c = '.' then c :: acc else extScan rev (c :: acc)

/-- Go `path.Ext`: the suffix from the last dot of the last element of the
path, `""` when that element has no dot. -/
def pathExt (p : String) : String := ⟨extScan p.data.reverse []⟩

/-- The browser headers of lines 390–392. -/
def imageHeaders : List (String × String) :=
  [("User-Agent", "Mozilla/5.0 (Windows NT 10.0; Win64; x64) AppleWebKit/537.36 (KHTML, like Gecko) Chrome/117.0 Safari/537.36"),
   ("Accept", "image/avif,image/webp,image/apng,image/*,*/*;q=0.8"),
   ("Referer", "https://movie.douban.com/")]

/-- Lines 383–419 of `ImageProxyHandler`: the image is fetched and relayed. -/
def relayImage (env : ImageEnv) (u : URL) : ImageOutcome :=
  let target := env.URLString u
  match env.NewRequest "GET" target with
  | some _ => bareStatus 500
  | none =>
    let req : OutboundRequest := { method := "GET", target := target, headers := imageHeaders }
    match env.Do req with
    | .error _ => { outbound := [req], status := 502 }
    | .ok resp =>
      if resp.StatusCode ≠ 200 then { outbound := [req], status := 502 }
      else
        let ct := resp.ContentType
        let ct :=
          if ct = "" then
            let ext := pathExt u.Path
            let ct :=
              if ext ≠ "" then
                let t := env.TypeByExtension ext
                if t ≠ "" then t else ct
              else ct
            if ct = "" then "image/jpeg" else ct
          else ct
        { outbound := [req], status := 200,
          headers := [("Content-Type", ct), ("Cache-Control", "public, max-age=86400")],
          body := resp.Body }

/-- The allowlist test of lines 372–377 on the field `Host` of the URL. -/
def hostAllowed (u : URL) : Bool :=
  let host := ToLower u.Host
  HasSuffix host ".douban.com" || HasSuffix host ".doubanio.com"

/-- Lines 359–362: the target is the parameter `u` and, when that is empty, the
parameter `url`. -/
def imageTarget (c : Context) : String :=
  let raw := c.Query "u"
  if raw = "" then c.Query "url" else raw

/-- The handler `ImageProxyHandler` (lines 358–420). -/
def ImageProxyHandler (env : ImageEnv) (c : Context) : ImageOutcome :=
  let raw := imageTarget c
  if raw = "" then bareStatus 400
  else
    match env.Parse raw with
    | .error _ => bareStatus 400
    | .ok u =>
      if !u.IsAbs then bareStatus 400
      else if !hostAllowed u then bareStatus 403
      else relayImage env u

/-! ## The list parameters of a GET, in the words of the specification -/

/-- The value of a list parameter as the specification describes it: the text
is split on `,`, each piece is trimmed, the empty pieces are dropped, and the
result is `nil` when no piece is left. -/
def specList (value : String) : GoSlice :=
  let tokens := ((Split value ',').map TrimSpace).filter (fun piece => piece ≠ "")
  if tokens = [] then none else some tokens

/-! ## `DoubanProxyHandler` -/

/-- A Go `url.Values` in which every key has one value, which is all that
`Set` on an empty `url.Values` produces. -/
abbrev Values := List (String × String)

/-- Go `(url.Values).Set`: the value of the key is replaced, or the key added. -/
def Values.Set (q : Values) (key value : String) : Values :=
  if q.any (fun kv => kv.1 == key) then
    q.map (fun kv => if kv.1 == key then (key, value) else kv)
  else q ++ [(key, value)]

/-- The value a `url.Values` holds for a key, `none` when it has no such key. -/
def Values.lookup (q : Values) (key : String) : Option String :=
  (q.find? (fun kv => kv.1 == key)).map (fun kv => kv.2)

/-- The collaborators of `DoubanProxyHandler`. -/
structure DoubanEnv where
  /-- Go `(url.Values).Encode`. -/
  Encode : Values → String
  /-- Go `http.NewRequest(method, url, nil)`: the failure text when it fails. -/
  NewRequest : String → String → Option String
  /-- The shared client, `util.GetHTTPClient().Do`: the response, or the
  transport's failure text. -/
  Do : OutboundRequest → Except String UpstreamResponse

/-- The body `DoubanProxyHandler` writes. -/
inductive DoubanBody where
  /-- The JSON form of `model.NewErrorResponse(code, message)`, from `c.JSON`. -/
  | error (code : Nat) (message : String)
  /-- The bytes and the content type given to `c.Data`. -/
  | data (contentType : String) (body : Bytes)
  deriving DecidableEq, Repr

/-- What `DoubanProxyHandler` did: the requests it handed to the HTTP client,
and the status and body of the response. -/
structure DoubanOutcome where
  outbound : List OutboundRequest
  status : Nat
  body : DoubanBody
  deriving DecidableEq, Repr

/-- The browser headers of lines 265–267 and 331–333. -/
def doubanHeaders : List (String × String) :=
  [("User-Agent", "Mozilla/5.0 (Windows NT 10.0; Win64; x64) AppleWebKit/537.36 (KHTML, like Gecko) Chrome/117.0 Safari/537.36"),
   ("Accept", "application/json, text/plain, */*"),
   ("Referer", "https://movie.douban.com/")]

/-- The request of lines 260–267 and 325–333 for a target. -/
def doubanRequest (target : String) : OutboundRequest :=
  { method := "GET", target := target, headers := doubanHeaders }

/-- Lines 259–286, and lines 324–354 which repeat them: the target is fetched
and the reply is passed on. -/
def forwardDouban (env : DoubanEnv) (target : String) : DoubanOutcome :=
  match env.NewRequest "GET" target with
  | some err => { outbound := [], status := 500, body := .error 500 ("创建请求失败: " ++ err) }
  | none =>
    let req := doubanRequest target
    match env.Do req with
    | .error err =>
      { outbound := [req], status := 502, body := .error 502 ("请求豆瓣失败: " ++ err) }
    | .ok resp =>
      match resp.ReadError with
      | some err =>
        { outbound := [req], status := 502, body := .error 502 ("读取豆瓣响应失败: " ++ err) }
      | none =>
        if resp.StatusCode ≠ 200 then
          { outbound := [req], status := 502,
            body := .error 502 ("豆瓣响应状态异常: " ++ resp.Status) }
        else
          { outbound := [req], status := 200,
            body := .data "application/json; charset=utf-8" resp.Body }

/-- Line 253: the request asks for the suggest mode. -/
def suggestMode (c : Context) : Bool :=
  decide (c.Query "suggest" = "1" ∨ c.Query "endpoint" = "suggest")

/-- Lines 254–256: the query of the suggest mode. -/
def suggestQuery (c : Context) : Values :=
  let qv : Values := []
  let qParam := c.Query "q"
  if qParam ≠ "" then qv.Set "q" qParam else qv

/-- Lines 299–314: the type and the tag after the mapping of `cat`, which is
applied only when the client sent neither of them. -/
def resolveCategory (typ tag cat : String) : String × String :=
  if typ = "" ∧ tag = "" then
    if cat = "hot" then ("movie", "热门")
    else if cat = "movie" then ("movie", "热门")
    else if cat = "tv" then ("tv", "热门")
    else if cat = "variety" then ("tv", "综艺")
    else (typ, tag)
  else (typ, tag)

/-- Lines 290–320: the query of the catalog-search mode. -/
def catalogQuery (c : Context) : Values :=
  let q : Values := []
  let pageLimit := c.DefaultQuery "page_limit" "20"
  let pageStart := c.DefaultQuery "page_start" "0"
  let searchText := c.Query "search_text"
  let resolved := resolveCategory (c.Query "type") (c.Query "tag") (c.Query "cat")
  let typ := resolved.1
  let tag := resolved.2
  let q := if typ ≠ "" then q.Set "type" typ else q
  let q := if tag ≠ "" then q.Set "tag" tag else q
  let q := if searchText ≠ "" then q.Set "search_text" searchText else q
  let q := q.Set "page_limit" pageLimit
  q.Set "page_start" pageStart

/-- The target of the outbound request (lines 257 and 322). -/
def doubanTarget (env : DoubanEnv) (c : Context) : String :=
  if suggestMode c then
    "https://movie.douban.com/j/subject_suggest?" ++ env.Encode (suggestQuery c)
  else "https://movie.douban.com/j/search_subjects?" ++ env.Encode (catalogQuery c)

/-- The handler `DoubanProxyHandler` (lines 247–355). -/
def DoubanProxyHandler (env : DoubanEnv) (c : Context) : DoubanOutcome :=
  forwardDouban env (doubanTarget env c)

/-! ## The health check of `SetupRouter` -/

/-- A value of the `gin.H` the health check answers with. -/
inductive HValue where
  | str (s : String)
  | bool (b : Bool)
  | int (n : Int)
  | strings (xs : GoSlice)
  deriving DecidableEq, Repr

/-- A `gin.H`, a `map[string]any`, as the list of its keys and values. -/
abbrev H := List (String × HValue)

/-- The assignment `h[key] = value` on a `gin.H`. -/
def H.set (h : H) (key : String) (value : HValue) : H :=
  if h.any (fun kv => kv.1 == key) then
    h.map (fun kv => if kv.1 == key then (key, value) else kv)
  else h ++ [(key, value)]

/-- The keys of a `gin.H`. -/
def H.keys (h : H) : List String := h.map (fun kv => kv.1)

/-- The value of a key of a `gin.H`, `none` when the map has no such key. -/
def H.lookup (h : H) (key : String) : Option HValue :=
  (h.find? (fun kv => kv.1 == key)).map (fun kv => kv.2)

/-- What the health check reads. -/
structure HealthEnv where
  /-- The configuration value `config.AppConfig.AsyncPluginEnabled`. -/
  AsyncPluginEnabled : Bool
  /-- The configuration value `config.AppConfig.DefaultChannels`. -/
  DefaultChannels : GoSlice
  /-- The names `p.Name()` of `searchService.GetPluginManager().GetPlugins()`, in
  order; `none` when `searchService` or its plugin manager is `nil`. -/
  PluginNames : Option (List String)

/-- The response `c.JSON(status, body)` of the health check. -/
structure HealthOutcome where
  status : Nat
  body : H
  deriving DecidableEq, Repr

/-- The handler of `GET /api/health` (lines 47–79 of `router.go`). -/
def healthHandler (env : HealthEnv) : HealthOutcome :=
  let pluginCount : Int := 0
  let pluginNames : GoSlice := some []
  let pluginsEnabled := env.AsyncPluginEnabled
  let counted : Int × GoSlice :=
    match pluginsEnabled, env.PluginNames with
    | true, some plugins => (plugins.length, plugins.foldl GoSlice.append pluginNames)
    | _, _ => (pluginCount, pluginNames)
  let channels := env.DefaultChannels
  let channelsCount : Int := channels.len
  let response : H :=
    [("status", .str "ok"), ("plugins_enabled", .bool pluginsEnabled),
     ("channels", .strings channels), ("channels_count", .int channelsCount)]
  let response :=
    if pluginsEnabled then (response.set "plugin_count" (.int counted.1)).set "plugins"
      (.strings counted.2)
    else response
  { status := 200, body := response }

/-! ## Concrete requests -/

/-- An environment for the examples: one default channel; an `ext` decoder that
knows the empty object and rejects every other text; a body decoder that knows
the body `{}`, which it decodes to the zero request, and rejects every other
body; an engine that answers. -/
def exampleEnv : SearchEnv Unit Unit :=
  { DefaultChannels := some ["tgsearchers3"]
    StringToInt := fun _ => 0
    UnmarshalExt := fun s =>
      if s = "\x7b\x7d" then .ok (some []) else .error "invalid character in JSON text"
    UnmarshalRequest := fun data =>
      if data = [123, 125] then .ok {} else .error "invalid character in JSON text"
    Search := fun _ => .ok () }

/-- A GET of `/api/search` with the given query parameters. -/
def getSearch (query : List (String × String)) : Context :=
  { Method := "GET", QueryValues := query, RawData := .ok [] }

/-- A POST of `/api/search` with the given body. -/
def postSearch (body : Bytes) : Context :=
  { Method := "POST", QueryValues := [], RawData := .ok body }

/-- The request `GET /api/search?kw=x&src=tg&plugins=a,b`. -/
def tgRequest : Context := getSearch [("kw", "x"), ("src", "tg"), ("plugins", "a,b")]

/-- The call of the engine that `tgRequest` leads to. -/
def tgCall : SearchCall Unit :=
  { keyword := "x", channels := some ["tgsearchers3"], concurrency := 0, forceRefresh := false,
    resultType := "merged_by_type", sourceType := "tg", plugins := none, cloudTypes := none,
    ext := some [] }

/-- The request `GET /api/search?kw=x&src=plugin&channels=c1,c2`. -/
def pluginRequest : Context :=
  getSearch [("kw", "x"), ("src", "plugin"), ("channels", "c1,c2")]

/-- The call of the engine that `pluginRequest` leads to. -/
def pluginCall : SearchCall Unit :=
  { keyword := "x", channels := none, concurrency := 0, forceRefresh := false,
    resultType := "merged_by_type", sourceType := "plugin", plugins := none,
    cloudTypes := none, ext := some [] }

/-- The request `GET /api/search?kw=x&res=%20`: the result type is one space. -/
def blankResRequest : Context := getSearch [("kw", "x"), ("res", " ")]

/-- The request `GET /api/search?kw=x&res=links`. -/
def linksResRequest : Context := getSearch [("kw", "x"), ("res", "links")]

/-- The call of the engine that `linksResRequest` leads to. -/
def linksResCall : SearchCall Unit :=
  { keyword := "x", channels := some ["tgsearchers3"], concurrency := 0, forceRefresh := false,
    resultType := "links", sourceType := "all", plugins := none, cloudTypes := none,
    ext := some [] }

/-- The request `GET /api/search?kw=x&ext=%20`: the `ext` text is one space. -/
def blankExtRequest : Context := getSearch [("kw", "x"), ("ext", " ")]

/-- The request `GET /api/search?kw=x&ext={bad`. -/
def badExtRequest : Context := getSearch [("kw", "x"), ("ext", "\x7bbad")]

/-- The request `GET /api/search?kw=x&ext={}`. -/
def emptyObjectExtRequest : Context := getSearch [("kw", "x"), ("ext", "\x7b\x7d")]

/-- An environment of `VerifyTokenHandler` with the given server secret, in
which the body or form of every request carries the given token. -/
def tokenEnv (secret bound : String) : TokenEnv :=
  { Getenv := fun key => if key = "TOKEN" then secret else ""
    ShouldBindToken := fun _ => bound }

/-- A POST of `/api/token/verify` with the given query parameters. -/
def verifyRequest (query : List (String × String)) : Context :=
  { Method := "POST", QueryValues := query, RawData := .ok [] }

/-- An environment of `ImageProxyHandler`: a parser that knows five URLs, an
upstream that answers every request with a two-byte JPEG. -/
def exampleImageEnv : ImageEnv :=
  { Parse := fun raw =>
      if raw = "https://img3.doubanio.com/view/p1.jpg" then
        .ok { Scheme := "https", Host := "img3.doubanio.com", Path := "/view/p1.jpg" }
      else if raw = "HTTP://user:pw@IMG3.DoubanIO.com/view/p2.png?s=1" then
        .ok { Scheme := "http", User := some ("user", some "pw"), Host := "IMG3.DoubanIO.com",
              Path := "/view/p2.png", RawQuery := "s=1" }
      else if raw = "https://douban.com/favicon.ico" then
        .ok { Scheme := "https", Host := "douban.com", Path := "/favicon.ico" }
      else if raw = "https://evil.com/x.jpg" then
        .ok { Scheme := "https", Host := "evil.com", Path := "/x.jpg" }
      else if raw = "/view/p1.jpg" then
        .ok { Path := "/view/p1.jpg" }
      else .error "parse: invalid URL"
    URLString := fun u =>
      u.Scheme ++ "://" ++
        (match u.User with
          | none => ""
          | some (name, none) => name ++ "@"
          | some (name, some password) => name ++ ":" ++ password ++ "@") ++
        u.Host ++ u.Path ++ (if u.RawQuery = "" then "" else "?" ++ u.RawQuery)
    NewRequest := fun _ _ => none
    Do := fun _ =>
      .ok { StatusCode := 200, Status := "200 OK", ContentType := "image/jpeg",
            Body := [255, 216], ReadError := none }
    TypeByExtension := fun _ => "" }

/-- A GET of `/img` with the given target in the parameter `u`. -/
def imageRequest (target : String) : Context :=
  { Method := "GET", QueryValues := [("u", target)], RawData := .ok [] }

/-- The request `GET /api/search?kw=x&res=%20%20&src=%09`: the result type is
two spaces and the source type is a tab. -/
def wideBlankRequest : Context := getSearch [("kw", "x"), ("res", "  "), ("src", "\t")]

/-- The request `GET /api/search?kw=x&src=%20`: the source type is one space. -/
def blankSrcRequest : Context := getSearch [("kw", "x"), ("src", " ")]

/-- The request `GET /api/search?kw=x&src=custom&plugins=a`. -/
def customSrcRequest : Context := getSearch [("kw", "x"), ("src", "custom"), ("plugins", "a")]

/-- The call of the engine that `customSrcRequest` leads to. -/
def customSrcCall : SearchCall Unit :=
  { keyword := "x", channels := some ["tgsearchers3"], concurrency := 0, forceRefresh := false,
    resultType := "merged_by_type", sourceType := "custom", plugins := some ["a"],
    cloudTypes := none, ext := some [] }

/-- The request
`GET /api/search?kw=x&channels=%20a,%20,b%20&plugins=&cloud_types=baidu,%20quark%20,`. -/
def listsRequest : Context :=
  getSearch [("kw", "x"), ("channels", " a, ,b "), ("plugins", ""),
    ("cloud_types", "baidu, quark ,")]

/-- The call of the engine that `listsRequest` leads to. -/
def listsCall : SearchCall Unit :=
  { keyword := "x", channels := some ["a", "b"], concurrency := 0, forceRefresh := false,
    resultType := "merged_by_type", sourceType := "all", plugins := none,
    cloudTypes := some ["baidu", "quark"], ext := some [] }

/-- The bytes of the body `{"src":"plugin","plugins":[]}`. -/
def emptyPluginsBody : Bytes :=
  [123, 34, 115, 114, 99, 34, 58, 34, 112, 108, 117, 103, 105, 110, 34,
   44, 34, 112, 108, 117, 103, 105, 110, 115, 34, 58, 91, 93, 125]

/-- An environment like `exampleEnv` whose body decoder knows the body
`emptyPluginsBody`, which it decodes to the source type `plugin` and an empty
plugin list that is not `nil`, and rejects every other body. -/
def pluginBodyEnv : SearchEnv Unit Unit :=
  { DefaultChannels := some ["tgsearchers3"]
    StringToInt := fun _ => 0
    UnmarshalExt := fun s =>
      if s = "\x7b\x7d" then .ok (some []) else .error "invalid character in JSON text"
    UnmarshalRequest := fun data =>
      if data = emptyPluginsBody then .ok { SourceType := "plugin", Plugins := some [] }
      else .error "invalid character in JSON text"
    Search := fun _ => .ok () }

/-- The call of the engine that `blankResRequest` leads to. -/
def blankResCall : SearchCall Unit :=
  { keyword := "x", channels := some ["tgsearchers3"], concurrency := 0, forceRefresh := false,
    resultType := "merged_by_type", sourceType := "all", plugins := none, cloudTypes := none,
    ext := some [] }

/-- The call of the engine that the body `emptyPluginsBody` leads to. -/
def emptyPluginsCall : SearchCall Unit :=
  { keyword := "", channels := none, concurrency := 0, forceRefresh := false,
    resultType := "merged_by_type", sourceType := "plugin", plugins := some [],
    cloudTypes := none, ext := none }

/-- An environment of `DoubanProxyHandler` whose upstream answers every request
with the given reply; its `Encode` joins the pairs with `&` as they are. -/
def exampleDoubanEnv (resp : UpstreamResponse) : DoubanEnv :=
  { Encode := fun q => "&".intercalate (q.map (fun kv => kv.1 ++ "=" ++ kv.2))
    NewRequest := fun _ _ => none
    Do := fun _ => .ok resp }

/-- A GET of `/api/douban` with the given query parameters. -/
def doubanGet (query : List (String × String)) : Context :=
  { Method := "GET", QueryValues := query, RawData := .ok [] }

/-- The request `GET /api/douban?cat=tv`. -/
def catTvRequest : Context := doubanGet [("cat", "tv")]

/-- The request `GET /api/douban?type=movie&tag=文艺&cat=tv`. -/
def explicitTypeRequest : Context :=
  doubanGet [("type", "movie"), ("tag", "文艺"), ("cat", "tv")]

/-- The request `GET /api/douban?suggest=1&q=abc`. -/
def suggestRequest : Context := doubanGet [("suggest", "1"), ("q", "abc")]

/-- An upstream reply `200 OK` with a body of three bytes. -/
def okReply : UpstreamResponse :=
  { StatusCode := 200, Status := "200 OK", ContentType := "application/json",
    Body := [91, 32, 93], ReadError := none }

/-- An upstream reply `503 Service Unavailable`. -/
def unavailableReply : UpstreamResponse :=
  { StatusCode := 503, Status := "503 Service Unavailable", ContentType := "text/html",
    Body := [60, 104, 62], ReadError := none }

/-- A health environment with the plugin subsystem disabled and a plugin
manager that holds two plugins. -/
def disabledHealthEnv : HealthEnv :=
  { AsyncPluginEnabled := false, DefaultChannels := some ["tgsearchers3", "yunpanx"],
    PluginNames := some ["pansearch", "qupansou"] }

/-- The target `https://img3.doubanİo.com/x.jpg`, whose host has the rune U+0130
(capital I with a dot above) in the place of the `i` of `doubanio.com`. -/
def caseTrickTarget : String := "https://img3.douban\u0130o.com/x.jpg"

/-- The URL that `url.Parse` gives for `caseTrickTarget`. -/
def caseTrickURL : URL :=
  { Scheme := "https", Host := "img3.douban\u0130o.com", Path := "/x.jpg" }

/-- An environment of `ImageProxyHandler` whose parser knows `caseTrickTarget`
and whose `String` gives the URL back with the two bytes of U+0130 escaped, as
`(*URL).String` escapes a host; the upstream answers every request with a
two-byte JPEG. -/
def caseTrickImageEnv : ImageEnv :=
  { Parse := fun raw =>
      if raw = caseTrickTarget then .ok caseTrickURL else .error "parse: invalid URL"
    URLString := fun u =>
      if u = caseTrickURL then "https://img3.douban%C4%B0o.com/x.jpg"
      else u.Scheme ++ "://" ++ u.Host ++ u.Path
    NewRequest := fun _ _ => none
    Do := fun _ =>
      .ok { StatusCode := 200, Status := "200 OK", ContentType := "image/jpeg",
            Body := [255, 216], ReadError := none }
    TypeByExtension := fun _ => "" }

/-- The request `GET /img?u=https%3A%2F%2Fimg3.douban%C4%B0o.com%2Fx.jpg`. -/
def caseTrickRequest : Context := imageRequest caseTrickTarget

/-! ## Properties of `SearchHandler` -/

section SearchLemmas

variable {V R : Type}

/-- Lines 165–167 as one update of the request. -/
theorem defaultChannels_eq (dflt : GoSlice) (req : SearchRequest V) :
    defaultChannels dflt req =
      { req with Channels := if req.Channels.len = 0 then dflt else req.Channels } := by
  unfold defaultChannels
  split_ifs <;> rfl

/-- Lines 170–175 as one update of the request. -/
theorem defaultResultType_eq (req : SearchRequest V) :
    defaultResultType req =
      { req with ResultType :=
          if req.ResultType = "" ∨ req.ResultType = "merge" then "merged_by_type"
          else req.ResultType } := by
  unfold defaultResultType
  by_cases h1 : req.ResultType = ""
  · simp [h1]
  · by_cases h2 : req.ResultType = "merge"
    · simp [h2]
    · simp [h1, h2]

/-- Lines 178–180 as one update of the request. -/
theorem defaultSourceType_eq (req : SearchRequest V) :
    defaultSourceType req =
      { req with SourceType := if req.SourceType = "" then "all" else req.SourceType } := by
  unfold defaultSourceType
  split_ifs <;> rfl

/-- Lines 183–192 as one update of the request. -/
theorem mutualExclusion_eq (req : SearchRequest V) :
    mutualExclusion req =
      { req with
        Channels := if req.SourceType = "plugin" then none else req.Channels
        Plugins :=
          if req.SourceType = "tg" then none
          else if req.SourceType = "all" ∧ (req.Plugins = none ∨ req.Plugins.len = 0) then none
          else req.Plugins } := by
  unfold mutualExclusion
  by_cases h1 : req.SourceType = "tg"
  · simp [h1]
  · by_cases h2 : req.SourceType = "plugin"
    · simp [h2]
    · by_cases h3 : req.SourceType = "all"
      · by_cases h4 : req.Plugins = none ∨ req.Plugins.len = 0
        · simp [h3, h4]
        · cases req; simp_all
      · simp [h1, h2, h3]

/-- The request after lines 164–192, field by field. -/
theorem applyDefaults_eq (dflt : GoSlice) (req : SearchRequest V) :
    applyDefaults dflt req =
      { Keyword := req.Keyword
        Channels :=
          if req.SourceType = "plugin" then none
          else if req.Channels.len = 0 then dflt else req.Channels
        Concurrency := req.Concurrency
        ForceRefresh := req.ForceRefresh
        ResultType :=
          if req.ResultType = "" ∨ req.ResultType = "merge" then "merged_by_type"
          else req.ResultType
        SourceType := if req.SourceType = "" then "all" else req.SourceType
        Plugins :=
          if req.SourceType = "tg" then none
          else if (req.SourceType = "" ∨ req.SourceType = "all") ∧
              (req.Plugins = none ∨ req.Plugins.len = 0) then none
          else req.Plugins
        CloudTypes := req.CloudTypes
        Ext := req.Ext } := by
  unfold applyDefaults
  rw [defaultChannels_eq, defaultResultType_eq, defaultSourceType_eq, mutualExclusion_eq]
  by_cases h0 : req.SourceType = ""
  · simp [h0]
  · simp [h0]

/-- The engine is called exactly when the request was parsed, once, with the
request of lines 164–192. -/
theorem searchCalls_eq (env : SearchEnv V R) (c : Context) :
    (SearchHandler env c).searchCalls =
      match parseRequest env c with
      | .error _ => []
      | .ok req => [(applyDefaults env.DefaultChannels req).toCall] := by
  unfold SearchHandler
  cases parseRequest env c with
  | error msg => rfl
  | ok req =>
    simp only [dispatch]
    cases env.Search (applyDefaults env.DefaultChannels req).toCall <;> rfl

/-- A call of the engine comes from a parsed request. -/
theorem mem_searchCalls {env : SearchEnv V R} {c : Context} {call : SearchCall V}
    (h : call ∈ (SearchHandler env c).searchCalls) :
    ∃ req, parseRequest env c = .ok req ∧ call = (applyDefaults env.DefaultChannels req).toCall := by
  rw [searchCalls_eq] at h
  cases hp : parseRequest env c with
  | error msg => simp [hp] at h
  | ok req =>
    simp only [hp, List.mem_singleton] at h
    exact ⟨req, rfl, h⟩

/-- A parsed request reaches the engine: the handler calls it once. -/
theorem searchCalls_of_parsed {env : SearchEnv V R} {c : Context} {req : SearchRequest V}
    (h : parseRequest env c = .ok req) :
    (SearchHandler env c).searchCalls = [(applyDefaults env.DefaultChannels req).toCall] := by
  rw [searchCalls_eq, h]

/-- A request that is not parsed is answered 400 and the engine is not called. -/
theorem SearchHandler_of_error {env : SearchEnv V R} {c : Context} {msg : String}
    (h : parseRequest env c = .error msg) :
    SearchHandler env c = { searchCalls := [], status := 400, body := .error 400 msg } := by
  unfold SearchHandler
  rw [h]

/-- The `ext` of a parsed GET is never `nil`. -/
theorem parseExt_ne_none {env : SearchEnv V R} {extStr : String} {ext : GoMap V}
    (h : parseExt env extStr = .ok ext) : ext ≠ none := by
  unfold parseExt at h
  simp only [GoMap.make] at h
  split at h
  · cases h
  · rename_i e _
    cases e with
    | none => simp at h; subst h; simp
    | some m => simp at h; subst h; simp

/-- The fields of the request a GET is parsed to. -/
theorem parseGet_ok {env : SearchEnv V R} {c : Context} {req : SearchRequest V}
    (h : parseGet env c = .ok req) :
    req.SourceType = (if c.Query "src" = "" ∨ c.Query "src" = " " then "all" else c.Query "src") ∧
    req.ResultType =
      (if c.Query "res" = "" ∨ c.Query "res" = " " then "merge" else c.Query "res") ∧
    req.Channels = parseListParam (c.Query "channels") ∧
    req.Plugins = (if c.Has "plugins" then parseListParam (c.Query "plugins") else none) ∧
    parseExt env (c.Query "ext") = .ok req.Ext := by
  unfold parseGet at h
  simp only at h
  split at h
  · cases h
  · rename_i ext hext
    cases h
    exact ⟨rfl, rfl, rfl, rfl, hext⟩

end SearchLemmas

section SearchClaims

variable {V R : Type}

/-- C1: every call of the engine whose source type is `tg` has `nil` plugins;
the source type of the call is `tg` when the client sent `tg`, in the `src`
parameter of a GET or in the decoded body otherwise, whatever plugins the
client sent. -/
theorem tg_plugins_nil (env : SearchEnv V R) (c : Context) (call : SearchCall V)
    (hcall : call ∈ (SearchHandler env c).searchCalls) :
    (call.sourceType = "tg" → call.plugins = none) ∧
    (c.Method = MethodGet → c.Query "src" = "tg" →
      call.sourceType = "tg" ∧ call.plugins = none) ∧
    (∀ data req, c.Method ≠ MethodGet → c.RawData = .ok data →
      env.UnmarshalRequest data = .ok req → req.SourceType = "tg" →
      call.sourceType = "tg" ∧ call.plugins = none) := by
  obtain ⟨req, hreq, rfl⟩ := mem_searchCalls hcall
  have key : req.SourceType = "tg" →
      (applyDefaults env.DefaultChannels req).toCall.sourceType = "tg" ∧
      (applyDefaults env.DefaultChannels req).toCall.plugins = none := by
    intro h
    simp [applyDefaults_eq, SearchRequest.toCall, h]
  refine ⟨?_, ?_, ?_⟩
  · intro h
    have hsrc : req.SourceType = "tg" := by
      simp only [applyDefaults_eq, SearchRequest.toCall] at h
      by_cases h0 : req.SourceType = ""
      · simp [h0] at h
      · simpa [h0] using h
    exact (key hsrc).2
  · intro hm hq
    simp only [parseRequest, hm, if_true] at hreq
    have hs := (parseGet_ok hreq).1
    simp [hq] at hs
    exact key hs
  · intro data req2 hm hraw hdec hsrc
    simp only [parseRequest, hm, if_false, parseBody, hraw, hdec] at hreq
    cases hreq
    exact key hsrc

/-- C1 on `GET /api/search?kw=x&src=tg&plugins=a,b`: the engine is called, with
source type `tg`, and the plugins of the call are `nil`. -/
theorem tg_plugins_nil_witness :
    tgCall ∈ (SearchHandler exampleEnv tgRequest).searchCalls ∧
    tgRequest.Query "plugins" = "a,b" ∧ tgCall.sourceType = "tg" ∧ tgCall.plugins = none :=
  ⟨by decide, by decide,
   (tg_plugins_nil exampleEnv tgRequest tgCall (by decide)).2.1 rfl rfl⟩

/-- C2: every call of the engine whose source type is `plugin` has `nil`
channels; the source type of the call is `plugin` when the client sent
`plugin`, whatever channels the client sent and whatever the default channels
are. -/
theorem plugin_channels_nil (env : SearchEnv V R) (c : Context) (call : SearchCall V)
    (hcall : call ∈ (SearchHandler env c).searchCalls) :
    (call.sourceType = "plugin" → call.channels = none) ∧
    (c.Method = MethodGet → c.Query "src" = "plugin" →
      call.sourceType = "plugin" ∧ call.channels = none) ∧
    (∀ data req, c.Method ≠ MethodGet → c.RawData = .ok data →
      env.UnmarshalRequest data = .ok req → req.SourceType = "plugin" →
      call.sourceType = "plugin" ∧ call.channels = none) := by
  obtain ⟨req, hreq, rfl⟩ := mem_searchCalls hcall
  have key : req.SourceType = "plugin" →
      (applyDefaults env.DefaultChannels req).toCall.sourceType = "plugin" ∧
      (applyDefaults env.DefaultChannels req).toCall.channels = none := by
    intro h
    simp [applyDefaults_eq, SearchRequest.toCall, h]
  refine ⟨?_, ?_, ?_⟩
  · intro h
    have hsrc : req.SourceType = "plugin" := by
      simp only [applyDefaults_eq, SearchRequest.toCall] at h
      by_cases h0 : req.SourceType = ""
      · simp [h0] at h
      · simpa [h0] using h
    exact (key hsrc).2
  · intro hm hq
    simp only [parseRequest, hm, if_true] at hreq
    have hs := (parseGet_ok hreq).1
    simp [hq] at hs
    exact key hs
  · intro data req2 hm hraw hdec hsrc
    simp only [parseRequest, hm, if_false, parseBody, hraw, hdec] at hreq
    cases hreq
    exact key hsrc

/-- C2 on `GET /api/search?kw=x&src=plugin&channels=c1,c2`: the engine is
called, with source type `plugin`, and the channels of the call are `nil`. -/
theorem plugin_channels_nil_witness :
    pluginCall ∈ (SearchHandler exampleEnv pluginRequest).searchCalls ∧
    pluginRequest.Query "channels" = "c1,c2" ∧
    pluginCall.sourceType = "plugin" ∧ pluginCall.channels = none :=
  ⟨by decide, by decide,
   (plugin_channels_nil exampleEnv pluginRequest pluginCall (by decide)).2.1 rfl rfl⟩

/-- The `Ext` of every call that comes from a GET is a map that is not `nil`
(lines 134–137). -/
theorem get_ext_ne_nil (env : SearchEnv V R) (c : Context) (call : SearchCall V)
    (hget : c.Method = MethodGet) (hcall : call ∈ (SearchHandler env c).searchCalls) :
    call.ext ≠ none := by
  obtain ⟨req, hreq, rfl⟩ := mem_searchCalls hcall
  simp only [parseRequest, hget, if_true] at hreq
  have h := (parseGet_ok hreq).2.2.2.2
  simpa [applyDefaults_eq, SearchRequest.toCall] using parseExt_ne_none h

/-- C3 at the body `{}` of a POST: the request is decoded with a `nil` `Ext`,
nothing after the decoding sets it, and the engine is called with `Ext = nil`. -/
theorem post_ext_nil :
    (SearchHandler exampleEnv (postSearch [123, 125])).searchCalls =
      [{ keyword := "", channels := some ["tgsearchers3"], concurrency := 0,
         forceRefresh := false, resultType := "merged_by_type", sourceType := "all",
         plugins := none, cloudTypes := none, ext := none }] ∧
    (SearchHandler exampleEnv (postSearch [123, 125])).status = 200 := by
  decide

/-- C8 as amended: the result type of every call of the engine is
`merged_by_type` when the client's result type is `merge`, empty or omitted, or,
in a GET, one space, and is the client's value otherwise; it is never `merge`
and never empty. -/
theorem resultType_canonical (env : SearchEnv V R) (c : Context) (call : SearchCall V)
    (hcall : call ∈ (SearchHandler env c).searchCalls) :
    (c.Method = MethodGet →
      call.resultType =
        if c.Query "res" = "" ∨ c.Query "res" = " " ∨ c.Query "res" = "merge"
        then "merged_by_type" else c.Query "res") ∧
    (∀ data req, c.Method ≠ MethodGet → c.RawData = .ok data →
      env.UnmarshalRequest data = .ok req →
      call.resultType =
        if req.ResultType = "" ∨ req.ResultType = "merge"
        then "merged_by_type" else req.ResultType) ∧
    call.resultType ≠ "merge" ∧ call.resultType ≠ "" := by
  obtain ⟨req, hreq, rfl⟩ := mem_searchCalls hcall
  have hrt : (applyDefaults env.DefaultChannels req).toCall.resultType =
      if req.ResultType = "" ∨ req.ResultType = "merge" then "merged_by_type"
      else req.ResultType := by
    simp [applyDefaults_eq, SearchRequest.toCall]
  refine ⟨?_, ?_, ?_, ?_⟩
  · intro hm
    simp only [parseRequest, hm, if_true] at hreq
    have hs := (parseGet_ok hreq).2.1
    rw [hrt, hs]
    by_cases h1 : c.Query "res" = ""
    · simp [h1]
    · by_cases h2 : c.Query "res" = " "
      · simp [h2]
      · simp [h1, h2]
  · intro data req2 hm hraw hdec
    simp only [parseRequest, hm, if_false, parseBody, hraw, hdec] at hreq
    cases hreq
    exact hrt
  · rw [hrt]
    split_ifs with h
    · decide
    · exact fun h2 => h (Or.inr h2)
  · rw [hrt]
    split_ifs with h
    · decide
    · exact fun h2 => h (Or.inl h2)

/-- C8 as amended, on `GET /api/search?kw=x&res=links`: the engine is called
with the client's result type. -/
theorem resultType_canonical_witness :
    linksResCall ∈ (SearchHandler exampleEnv linksResRequest).searchCalls ∧
    linksResCall.resultType = "links" :=
  ⟨by decide,
   ((resultType_canonical exampleEnv linksResRequest linksResCall (by decide)).1 rfl).trans
     (by decide)⟩

/-- C8 as stated fails on `GET /api/search?kw=x&res=%20`: the client's result
type is one space, which is neither `merge` nor empty, and the engine is called
with `merged_by_type`, not with the client's value. -/
theorem resultType_blank_counterexample :
    blankResRequest.Query "res" = " " ∧
    (SearchHandler exampleEnv blankResRequest).searchCalls.map (fun call => call.resultType) =
      ["merged_by_type"] ∧
    ¬ ∀ call ∈ (SearchHandler exampleEnv blankResRequest).searchCalls,
        call.resultType =
          if blankResRequest.Query "res" = "" ∨ blankResRequest.Query "res" = "merge"
          then "merged_by_type" else blankResRequest.Query "res" := by
  decide

/-- C9 as amended: a GET whose `ext` text is neither empty, nor one space, nor
`{}`, and is rejected by the decoder, a body that cannot be read, and a body that
the decoder rejects, are each answered 400 with the failure text in the message,
and the engine is not called. -/
theorem malformed_input_400 (env : SearchEnv V R) (c : Context) :
    (∀ err, c.Method = MethodGet → c.Query "ext" ≠ "" → c.Query "ext" ≠ " " →
      c.Query "ext" ≠ "\x7b\x7d" → env.UnmarshalExt (c.Query "ext") = .error err →
      SearchHandler env c =
        { searchCalls := [], status := 400, body := .error 400 ("无效的ext参数格式: " ++ err) }) ∧
    (∀ err, c.Method ≠ MethodGet → c.RawData = .error err →
      SearchHandler env c =
        { searchCalls := [], status := 400, body := .error 400 ("读取请求数据失败: " ++ err) }) ∧
    (∀ data err, c.Method ≠ MethodGet → c.RawData = .ok data →
      env.UnmarshalRequest data = .error err →
      SearchHandler env c =
        { searchCalls := [], status := 400, body := .error 400 ("无效的请求参数: " ++ err) }) := by
  refine ⟨?_, ?_, ?_⟩
  · intro err hm h1 h2 h3 hdec
    apply SearchHandler_of_error
    simp [parseRequest, hm, parseGet, parseExt, h1, h2, h3, hdec]
  · intro err hm hraw
    apply SearchHandler_of_error
    simp [parseRequest, hm, parseBody, hraw]
  · intro data err hm hraw hdec
    apply SearchHandler_of_error
    simp [parseRequest, hm, parseBody, hraw, hdec]

/-- C9 as amended, on `GET /api/search?kw=x&ext={bad`: the answer is 400 with
the decoder's text and the engine is not called. -/
theorem malformed_input_400_witness :
    SearchHandler exampleEnv badExtRequest =
      { searchCalls := [], status := 400,
        body := .error 400 ("无效的ext参数格式: " ++ "invalid character in JSON text") } :=
  (malformed_input_400 exampleEnv badExtRequest).1 "invalid character in JSON text"
    (by decide) (by decide) (by decide) (by decide) rfl

/-- C9 as stated fails on `GET /api/search?kw=x&ext=%20`: the `ext` text is one
space, which the decoder rejects, and the request is answered 200 after a call
of the engine. -/
theorem malformed_ext_blank_counterexample :
    blankExtRequest.Query "ext" = " " ∧
    exampleEnv.UnmarshalExt (blankExtRequest.Query "ext") =
      .error "invalid character in JSON text" ∧
    (SearchHandler exampleEnv blankExtRequest).status = 200 ∧
    (SearchHandler exampleEnv blankExtRequest).searchCalls.length = 1 :=
  ⟨by decide, rfl, by decide, by decide⟩

/-- A key that the query does not have reads as the empty string. -/
theorem Query_of_not_Has {c : Context} {key : String} (h : c.Has key = false) :
    c.Query key = "" := by
  unfold Context.Has at h
  unfold Context.Query
  have : c.QueryValues.find? (fun kv => kv.1 == key) = none := by
    rw [List.find?_eq_none]
    intro kv hkv
    have := List.any_eq_false.mp h kv hkv
    simpa using this
  rw [this]

/-- An `ext` text that is empty or `{}` is parsed to the empty map without the
decoder. -/
theorem parseExt_of_blank (env : SearchEnv V R) {extStr : String}
    (h : extStr = "" ∨ extStr = "\x7b\x7d") : parseExt env extStr = .ok (some []) := by
  rcases h with h | h <;> subst h <;> simp [parseExt, GoMap.make]

/-- The request a GET with an empty or `{}` `ext` text is parsed to. -/
theorem parseGet_of_blank_ext (env : SearchEnv V R) (c : Context)
    (hq : c.Query "ext" = "" ∨ c.Query "ext" = "\x7b\x7d") :
    parseGet env c = .ok
      { Keyword := c.Query "kw"
        Channels := parseListParam (c.Query "channels")
        Concurrency :=
          if c.Query "conc" ≠ "" ∧ c.Query "conc" ≠ " " then env.StringToInt (c.Query "conc")
          else 0
        ForceRefresh :=
          decide (c.Query "refresh" ≠ "" ∧ c.Query "refresh" ≠ " " ∧ c.Query "refresh" = "true")
        ResultType :=
          if c.Query "res" = "" ∨ c.Query "res" = " " then "merge" else c.Query "res"
        SourceType :=
          if c.Query "src" = "" ∨ c.Query "src" = " " then "all" else c.Query "src"
        Plugins := if c.Has "plugins" then parseListParam (c.Query "plugins") else none
        CloudTypes :=
          if c.Has "cloud_types" then parseListParam (c.Query "cloud_types") else none
        Ext := some [] } := by
  simp only [parseGet, parseExt_of_blank env hq]

/-- C10: a GET whose `ext` parameter is omitted, empty or `{}` is passed on to
the engine, in one call whose `Ext` is the empty map and not `nil`; the outcome
is the same whatever the JSON decoder of `ext` is, so the decoder is not
consulted. -/
theorem ext_empty_map (env : SearchEnv V R) (c : Context) (hget : c.Method = MethodGet)
    (hext : c.Has "ext" = false ∨ c.Query "ext" = "" ∨ c.Query "ext" = "\x7b\x7d") :
    (∃ call, (SearchHandler env c).searchCalls = [call] ∧ call.ext = some []) ∧
    ∀ decoder : String → Except String (GoMap V),
      SearchHandler { env with UnmarshalExt := decoder } c = SearchHandler env c := by
  have hq : c.Query "ext" = "" ∨ c.Query "ext" = "\x7b\x7d" := by
    rcases hext with h | h | h
    · exact Or.inl (Query_of_not_Has h)
    · exact Or.inl h
    · exact Or.inr h
  have hparse : ∀ env2 : SearchEnv V R, parseRequest env2 c = parseGet env2 c := by
    intro env2
    simp only [parseRequest, hget, if_true]
  refine ⟨?_, ?_⟩
  · refine ⟨_, searchCalls_of_parsed ((hparse env).trans (parseGet_of_blank_ext env c hq)), ?_⟩
    simp [applyDefaults_eq, SearchRequest.toCall]
  · intro decoder
    simp only [SearchHandler, hparse, parseGet_of_blank_ext _ c hq, dispatch]

/-- C10 on `GET /api/search?kw=x&ext={}`: one call of the engine, with the
empty map, also with a decoder that rejects every text. -/
theorem ext_empty_map_witness :
    (∃ call, (SearchHandler exampleEnv emptyObjectExtRequest).searchCalls = [call] ∧
      call.ext = some []) ∧
    SearchHandler { exampleEnv with UnmarshalExt := fun _ => .error "no decoder" }
      emptyObjectExtRequest = SearchHandler exampleEnv emptyObjectExtRequest :=
  ⟨(ext_empty_map exampleEnv emptyObjectExtRequest rfl (Or.inr (Or.inr (by decide)))).1,
   (ext_empty_map exampleEnv emptyObjectExtRequest rfl (Or.inr (Or.inr (by decide)))).2
     (fun _ => .error "no decoder")⟩

end SearchClaims

/-! ## Properties of `VerifyTokenHandler` -/

/-- An ASCII rune is one byte of UTF-8. -/
theorem utf8Size_of_ascii {c : Char} (h : c.toNat ≤ 127) : c.utf8Size = 1 := by
  have h2 : c.val ≤ 127 := h
  simp [Char.utf8Size, h2]

/-- On the way to an ASCII rune other than `i` and `k`, the lower case of Go is
the lower case of ASCII. -/
theorem unicodeToLower_eq_iff {c x : Char} (hx : x.toNat ≤ 127) (hi : x ≠ 'i') (hk : x ≠ 'k') :
    unicodeToLower c = x ↔ asciiLower c = x := by
  unfold unicodeToLower asciiLower
  by_cases h : 'A'.toNat ≤ c.toNat ∧ c.toNat ≤ 'Z'.toNat
  · simp only [h, and_self, if_true]
  · simp only [h, if_false]
    by_cases h1 : c.toNat = 0x130
    · simp only [h1, if_true]
      constructor
      · intro e; exact absurd e.symm hi
      · intro e; subst e; omega
    · simp only [h1, if_false]
      by_cases h2 : c.toNat = 0x212A
      · simp only [h2, if_true]
        constructor
        · intro e; exact absurd e.symm hk
        · intro e; subst e; omega
      · simp only [h2, if_false]

/-- Only an ASCII rune has an ASCII rune as its ASCII lower case. -/
theorem ascii_of_asciiLower {c x : Char} (hx : x.toNat ≤ 127) (h : asciiLower c = x) :
    c.toNat ≤ 127 := by
  unfold asciiLower at h
  split_ifs at h with h1
  · have : 'Z'.toNat = 90 := by decide
    omega
  · subst h; exact hx


/-- A prefix test on a lower-cased rune list, for a prefix of ASCII runes other
than `i` and `k`, compares the first runes up to ASCII letter case. -/
theorem isPrefixOf_map_unicodeToLower (p : List Char)
    (hp : ∀ x ∈ p, x.toNat ≤ 127 ∧ x ≠ 'i' ∧ x ≠ 'k') (l : List Char) :
    p.isPrefixOf (l.map unicodeToLower) = true ↔ (l.take p.length).map asciiLower = p := by
  induction p generalizing l with
  | nil => simp
  | cons x p ih =>
    have hx := hp x (List.mem_cons_self x p)
    have hp2 : ∀ y ∈ p, y.toNat ≤ 127 ∧ y ≠ 'i' ∧ y ≠ 'k' :=
      fun y hy => hp y (List.mem_cons_of_mem x hy)
    cases l with
    | nil => simp
    | cons c l =>
      simp only [List.map_cons, List.isPrefixOf, Bool.and_eq_true, beq_iff_eq, List.length_cons,
        List.take_succ_cons, List.cons.injEq]
      rw [ih hp2 l, eq_comm, unicodeToLower_eq_iff hx.1 hx.2.1 hx.2.2]

/-- Dropping `n` bytes drops `n` runes when the first `n` runes are ASCII. -/
theorem dropBytes_of_ascii (n : Nat) (l : List Char) (h : ∀ c ∈ l.take n, c.toNat ≤ 127) :
    dropBytes n l = l.drop n := by
  induction l generalizing n with
  | nil => cases n <;> simp [dropBytes]
  | cons c l ih =>
    cases n with
    | zero => simp [dropBytes]
    | succ n =>
      have hc : c.toNat ≤ 127 := h c (by simp)
      have hl : ∀ d ∈ l.take n, d.toNat ≤ 127 := fun d hd => h d (by simp [hd])
      simp only [dropBytes, utf8Size_of_ascii hc, Nat.add_sub_cancel, List.drop_succ_cons]
      exact ih n hl

/-- The seven runes of the prefix are ASCII and none is `i` or `k`. -/
theorem bearer_runes : ∀ x ∈ "bearer ".data, x.toNat ≤ 127 ∧ x ≠ 'i' ∧ x ≠ 'k' := by
  decide

/-- The prefix test of line 233 is the comparison of the first seven runes with
`bearer ` up to ASCII letter case. -/
theorem HasPrefix_bearer_iff (t : String) :
    HasPrefix (ToLower t) "bearer " = true ↔
      (t.data.take 7).map asciiLower = "bearer ".data := by
  unfold HasPrefix ToLower
  exact isPrefixOf_map_unicodeToLower "bearer ".data bearer_runes t.data

/-- When the prefix test of line 233 succeeds, byte 7 of the token is a rune
boundary, and `t[7:]` is the token without its first seven runes. -/
theorem sliceFrom_of_bearer (t : String) (h : HasPrefix (ToLower t) "bearer " = true) :
    sliceFrom t 7 = ⟨t.data.drop 7⟩ := by
  have h2 := (HasPrefix_bearer_iff t).mp h
  unfold sliceFrom
  congr 1
  apply dropBytes_of_ascii
  intro c hc
  have hm : asciiLower c ∈ (t.data.take 7).map asciiLower := List.mem_map_of_mem _ hc
  rw [h2] at hm
  exact ascii_of_asciiLower (bearer_runes _ hm).1 rfl

/-- The token that lines 232–233 compare with the secret is the token of the
specification. -/
theorem handler_token_eq (token : String) :
    (if HasPrefix (ToLower (TrimSpace token)) "bearer " then
        TrimSpace (sliceFrom (TrimSpace token) 7)
      else TrimSpace token) = bearerStripped token := by
  unfold bearerStripped
  dsimp only
  by_cases h : HasPrefix (ToLower (TrimSpace token)) "bearer " = true
  · rw [if_pos h, if_pos ((HasPrefix_bearer_iff _).mp h), sliceFrom_of_bearer _ h]
  · rw [if_neg h, if_neg (fun e => h ((HasPrefix_bearer_iff _).mpr e))]

/-- The response of `VerifyTokenHandler` in terms of the token of the
specification. -/
theorem VerifyTokenHandler_eq (env : TokenEnv) (c : Context) :
    VerifyTokenHandler env c =
      if env.Getenv "TOKEN" = "" then
        { status := 401, code := 401, message := "server token not configured" }
      else if bearerStripped (submittedToken env c) = env.Getenv "TOKEN" then
        { status := 200, code := 0, message := "ok" }
      else { status := 401, code := 401, message := "invalid token" } := by
  unfold VerifyTokenHandler
  simp only [handler_token_eq]

/-- C6: with an empty server secret every request is answered 401 with code 401
and the message `server token not configured`, whatever token it carries in the
body, the form or the query; the status is never 200, and the message is not the
one of a wrong token, which is `invalid token`. -/
theorem verify_fails_closed (env : TokenEnv) (c : Context) (hsecret : env.Getenv "TOKEN" = "") :
    VerifyTokenHandler env c =
      { status := 401, code := 401, message := "server token not configured" } ∧
    (VerifyTokenHandler env c).status ≠ 200 ∧
    (VerifyTokenHandler env c).message ≠ "invalid token" ∧
    ∀ (env2 : TokenEnv) (c2 : Context), env2.Getenv "TOKEN" ≠ "" →
      (VerifyTokenHandler env2 c2).status ≠ 200 →
      (VerifyTokenHandler env2 c2).message = "invalid token" := by
  have h : VerifyTokenHandler env c =
      { status := 401, code := 401, message := "server token not configured" } := by
    rw [VerifyTokenHandler_eq, if_pos hsecret]
  refine ⟨h, ?_, ?_, ?_⟩
  · rw [h]; decide
  · rw [h]; decide
  · intro env2 c2 hs hst
    rw [VerifyTokenHandler_eq, if_neg hs] at hst ⊢
    split_ifs at hst ⊢ with h2
    · exact absurd rfl hst
    · rfl

/-- C7: with a server secret that is not empty, the answer is 200 with code 0
and message `ok` exactly when the submitted token, trimmed, without a `Bearer `
prefix of any letter case, and trimmed again, is the secret; in every other case
the answer is 401 with code 401. -/
theorem verify_ok_iff (env : TokenEnv) (c : Context) (secret : String)
    (hsecret : env.Getenv "TOKEN" = secret) (hne : secret ≠ "") :
    (VerifyTokenHandler env c = { status := 200, code := 0, message := "ok" } ↔
      bearerStripped (submittedToken env c) = secret) ∧
    (bearerStripped (submittedToken env c) ≠ secret →
      (VerifyTokenHandler env c).status = 401 ∧ (VerifyTokenHandler env c).code = 401) := by
  subst hsecret
  rw [VerifyTokenHandler_eq, if_neg hne]
  by_cases h : bearerStripped (submittedToken env c) = env.Getenv "TOKEN"
  · simp [h]
  · simp [h]

/-- C6 on a request that carries the token `secret1` in the body and in the
query, with no server secret: 401 with the configuration message. -/
theorem verify_fails_closed_witness :
    VerifyTokenHandler (tokenEnv "" "secret1") (verifyRequest [("token", "secret1")]) =
      { status := 401, code := 401, message := "server token not configured" } :=
  (verify_fails_closed (tokenEnv "" "secret1") (verifyRequest [("token", "secret1")]) rfl).1

/-- C7 with the secret `secret1`: the token `Bearer secret1` is answered 200,
the token `secret2` is answered 401. -/
theorem verify_ok_iff_witness :
    VerifyTokenHandler (tokenEnv "secret1" "Bearer secret1") (verifyRequest []) =
      { status := 200, code := 0, message := "ok" } ∧
    (VerifyTokenHandler (tokenEnv "secret1" "") (verifyRequest [("token", "secret2")])).status
      = 401 :=
  ⟨(verify_ok_iff (tokenEnv "secret1" "Bearer secret1") (verifyRequest []) "secret1" rfl
      (by decide)).1.mpr (by decide),
   ((verify_ok_iff (tokenEnv "secret1" "") (verifyRequest [("token", "secret2")]) "secret1" rfl
      (by decide)).2 (by decide)).1⟩

/-! ## Properties of `ImageProxyHandler` -/

/-- The relay itself never answers 403: it answers 500, 502 or 200. -/
theorem relayImage_status (env : ImageEnv) (u : URL) :
    (relayImage env u).status = 500 ∨ (relayImage env u).status = 502 ∨
      (relayImage env u).status = 200 := by
  unfold relayImage
  dsimp only
  split
  · left; rfl
  · split
    · right; left; rfl
    · split_ifs <;> first | (right; left; rfl) | (right; right; rfl)

/-- The relay never answers 403. -/
theorem relayImage_status_ne (env : ImageEnv) (u : URL) : (relayImage env u).status ≠ 403 := by
  rcases relayImage_status env u with h | h | h <;> rw [h] <;> decide

/-- The handler on a target that is parsed to an absolute URL: the allowlist
decides between 403 and the relay. -/
theorem ImageProxyHandler_of_abs (env : ImageEnv) (c : Context) (u : URL)
    (hraw : imageTarget c ≠ "") (hparse : env.Parse (imageTarget c) = .ok u)
    (habs : u.IsAbs = true) :
    ImageProxyHandler env c = if hostAllowed u then relayImage env u else bareStatus 403 := by
  unfold ImageProxyHandler
  simp only [hraw, if_false, hparse, habs]
  cases hostAllowed u <;> simp

/-- C4 as amended: a target that is parsed to an absolute URL is relayed exactly
when the lower-cased `Host` of the URL ends with `.douban.com` or with
`.doubanio.com`, and is answered 403, with no outbound request, otherwise. -/
theorem image_allowlist (env : ImageEnv) (c : Context) (u : URL)
    (hraw : imageTarget c ≠ "") (hparse : env.Parse (imageTarget c) = .ok u)
    (habs : u.IsAbs = true) :
    ((HasSuffix (ToLower u.Host) ".douban.com" = true ∨
        HasSuffix (ToLower u.Host) ".doubanio.com" = true) →
      ImageProxyHandler env c = relayImage env u) ∧
    (¬ (HasSuffix (ToLower u.Host) ".douban.com" = true ∨
        HasSuffix (ToLower u.Host) ".doubanio.com" = true) →
      ImageProxyHandler env c = bareStatus 403) ∧
    ((ImageProxyHandler env c).status = 403 ↔
      ¬ (HasSuffix (ToLower u.Host) ".douban.com" = true ∨
        HasSuffix (ToLower u.Host) ".doubanio.com" = true)) := by
  have hall : hostAllowed u = true ↔
      (HasSuffix (ToLower u.Host) ".douban.com" = true ∨
        HasSuffix (ToLower u.Host) ".doubanio.com" = true) := by
    simp [hostAllowed]
  rw [ImageProxyHandler_of_abs env c u hraw hparse habs, ← hall]
  by_cases h : hostAllowed u = true
  · simp [h, relayImage_status_ne]
  · simp [h, bareStatus]

/-- C4 as amended, on the hosts `img3.doubanio.com` and `evil.com`: the first
is relayed, the second is answered 403. -/
theorem image_allowlist_witness :
    ImageProxyHandler exampleImageEnv (imageRequest "https://img3.doubanio.com/view/p1.jpg") =
      relayImage exampleImageEnv
        { Scheme := "https", Host := "img3.doubanio.com", Path := "/view/p1.jpg" } ∧
    ImageProxyHandler exampleImageEnv (imageRequest "https://evil.com/x.jpg") = bareStatus 403 :=
  ⟨(image_allowlist exampleImageEnv (imageRequest "https://img3.doubanio.com/view/p1.jpg")
      { Scheme := "https", Host := "img3.doubanio.com", Path := "/view/p1.jpg" }
      (by decide) rfl rfl).1 (Or.inr (by decide)),
   (image_allowlist exampleImageEnv (imageRequest "https://evil.com/x.jpg")
      { Scheme := "https", Host := "evil.com", Path := "/x.jpg" }
      (by decide) rfl rfl).2.1 (by decide)⟩

/-- C4 as stated fails on `GET /img?u=https://douban.com/favicon.ico`: the
lower-cased host is exactly the allowlisted domain `douban.com`, and the answer
is 403 with no outbound request. -/
theorem image_bare_domain_counterexample :
    exampleImageEnv.Parse (imageTarget (imageRequest "https://douban.com/favicon.ico")) =
      .ok { Scheme := "https", Host := "douban.com", Path := "/favicon.ico" } ∧
    ToLower "douban.com" = "douban.com" ∧
    ImageProxyHandler exampleImageEnv (imageRequest "https://douban.com/favicon.ico") =
      bareStatus 403 :=
  ⟨rfl, by decide, by decide⟩

/-- C5 at `GET /img?u=https%3A%2F%2Fimg3.douban%C4%B0o.com%2Fx.jpg`: the host
`img3.doubanİo.com`, which has the rune U+0130 where `doubanio.com` has `i`, ends
with no allowlisted domain, as it is and with its ASCII capitals lowered;
`strings.ToLower` turns the rune into `i`, so the lower-cased host ends with
`.doubanio.com`, the test of lines 372–377 passes, and one request goes out to
that host and its reply is relayed with status 200. -/
theorem image_case_trick_fetched :
    caseTrickImageEnv.Parse (imageTarget caseTrickRequest) = .ok caseTrickURL ∧
    caseTrickURL.IsAbs = true ∧
    HasSuffix caseTrickURL.Host "douban.com" = false ∧
    HasSuffix caseTrickURL.Host "doubanio.com" = false ∧
    HasSuffix ⟨caseTrickURL.Host.data.map asciiLower⟩ "douban.com" = false ∧
    HasSuffix ⟨caseTrickURL.Host.data.map asciiLower⟩ "doubanio.com" = false ∧
    ToLower caseTrickURL.Host = "img3.doubanio.com" ∧
    hostAllowed caseTrickURL = true ∧
    (ImageProxyHandler caseTrickImageEnv caseTrickRequest).status = 200 ∧
    (ImageProxyHandler caseTrickImageEnv caseTrickRequest).outbound =
      [{ method := "GET", target := "https://img3.douban%C4%B0o.com/x.jpg",
         headers := imageHeaders }] :=
  ⟨rfl, by decide, by decide, by decide, by decide, by decide, by decide, by decide, by decide,
   by decide⟩

/-! ## The list parameters of a GET -/

/-- The loop of lines 46–52 from any slice: nothing is appended when no piece is
left after trimming, and the pieces left are appended in order otherwise. -/
theorem foldl_appendTrimmed (parts : List String) (acc : GoSlice) :
    parts.foldl
        (fun acc part =>
          let trimmed := TrimSpace part
          if trimmed ≠ "" then GoSlice.append acc trimmed else acc)
        acc =
      if (parts.map TrimSpace).filter (fun piece => piece ≠ "") = [] then acc
      else some ((acc.getD []) ++ (parts.map TrimSpace).filter (fun piece => piece ≠ "")) := by
  induction parts generalizing acc with
  | nil => simp
  | cons p ps ih =>
    rw [List.foldl_cons, ih]
    by_cases hp : TrimSpace p = ""
    · simp [hp]
    · cases acc with
      | none => simp [hp, GoSlice.append]
      | some xs => simp [hp, GoSlice.append]

/-- The loop of lines 46–52 gives the trimmed non-empty pieces, or `nil` when
there is none. -/
theorem appendTrimmed_eq (parts : List String) :
    appendTrimmed parts =
      if (parts.map TrimSpace).filter (fun piece => piece ≠ "") = [] then none
      else some ((parts.map TrimSpace).filter (fun piece => piece ≠ "")) := by
  unfold appendTrimmed
  rw [foldl_appendTrimmed]
  simp

/-- The parse of lines 45–53 is the list of the specification: the guard
against the empty text and the one-space text changes nothing. -/
theorem parseListParam_eq_specList (str : String) : parseListParam str = specList str := by
  unfold parseListParam specList
  by_cases h : str ≠ "" ∧ str ≠ " "
  · rw [if_pos h, appendTrimmed_eq]
  · rw [if_neg h]
    have h2 : str = "" ∨ str = " " := by
      by_contra hc
      push_neg at hc
      exact h hc
    rcases h2 with h2 | h2 <;> subst h2 <;> decide

/-- A parsed list parameter is `nil` or holds at least one token. -/
theorem parseListParam_nil_or_nonempty (str : String) :
    parseListParam str = none ∨ ∃ xs, parseListParam str = some xs ∧ xs ≠ [] := by
  rw [parseListParam_eq_specList]
  unfold specList
  dsimp only
  split_ifs with h
  · exact Or.inl rfl
  · exact Or.inr ⟨_, rfl, h⟩

/-- A trimmed string neither starts nor ends with white space. -/
theorem TrimSpace_trimmed (s : String) :
    (∀ c, (TrimSpace s).data.head? = some c → unicodeIsSpace c = false) ∧
    (∀ c, (TrimSpace s).data.getLast? = some c → unicodeIsSpace c = false) := by
  unfold TrimSpace
  dsimp only
  generalize hm : s.data.dropWhile unicodeIsSpace = m
  generalize hn : m.reverse.dropWhile unicodeIsSpace = n
  refine ⟨?_, ?_⟩
  · intro c hc
    rw [List.head?_reverse] at hc
    have hne : n ≠ [] := by
      intro h0
      rw [h0] at hc
      simp at hc
    have hsuf : n <:+ m.reverse := hn ▸ List.dropWhile_suffix unicodeIsSpace
    have hlast := hsuf.getLast hne
    have hmne : m ≠ [] := by
      intro h0
      have := hsuf.ne_nil hne
      rw [h0] at this
      simp at this
    have hc2 : n.getLast hne = c := by
      rw [List.getLast?_eq_getLast _ hne] at hc
      exact Option.some.inj hc
    have hhead : m.head hmne = c := by
      rw [← hc2, hlast, List.getLast_reverse]
    have := List.head_dropWhile_not unicodeIsSpace s.data (by rw [hm]; exact hmne)
    simp only [hm] at this
    rw [← hhead]
    exact this
  · intro c hc
    rw [List.getLast?_reverse] at hc
    have := List.head?_dropWhile_not unicodeIsSpace m.reverse
    rw [hn, hc] at this
    exact this

/-! ## More properties of `SearchHandler` -/

section SearchClaimsMore

variable {V R : Type}

/-- The source type, the plugins and the channels of the call that a parsed
request leads to. -/
theorem toCall_applyDefaults (dflt : GoSlice) (req : SearchRequest V) :
    (applyDefaults dflt req).toCall.sourceType =
      (if req.SourceType = "" then "all" else req.SourceType) ∧
    (applyDefaults dflt req).toCall.resultType =
      (if req.ResultType = "" ∨ req.ResultType = "merge" then "merged_by_type"
        else req.ResultType) ∧
    (applyDefaults dflt req).toCall.plugins =
      (if req.SourceType = "tg" then none
        else if (req.SourceType = "" ∨ req.SourceType = "all") ∧
            (req.Plugins = none ∨ req.Plugins.len = 0) then none
        else req.Plugins) ∧
    (applyDefaults dflt req).toCall.channels =
      (if req.SourceType = "plugin" then none
        else if req.Channels.len = 0 then dflt else req.Channels) ∧
    (applyDefaults dflt req).toCall.cloudTypes = req.CloudTypes := by
  simp [applyDefaults_eq, SearchRequest.toCall]

/-- The request a GET is parsed to, when it is parsed. -/
theorem parseRequest_get {env : SearchEnv V R} {c : Context} (hget : c.Method = MethodGet) :
    parseRequest env c = parseGet env c := by
  simp only [parseRequest, hget, if_true]

/-- The request a body is decoded to, when it is decoded. -/
theorem parseRequest_body {env : SearchEnv V R} {c : Context} {data : Bytes}
    {req : SearchRequest V} (hm : c.Method ≠ MethodGet) (hraw : c.RawData = .ok data)
    (hdec : env.UnmarshalRequest data = .ok req) : parseRequest env c = .ok req := by
  simp only [parseRequest, hm, if_false, parseBody, hraw, hdec]

/-- The cloud types of the request a GET is parsed to. -/
theorem parseGet_CloudTypes {env : SearchEnv V R} {c : Context} {req : SearchRequest V}
    (h : parseGet env c = .ok req) :
    req.CloudTypes =
      if c.Has "cloud_types" then parseListParam (c.Query "cloud_types") else none := by
  unfold parseGet at h
  simp only at h
  split at h
  · cases h
  · cases h
    rfl

/-- C15 as amended: in a GET, a `res` parameter that is absent, empty or exactly
one space gives the result type `merged_by_type`, and a `src` parameter that is
absent, empty or exactly one space gives the source type `all`; every other
value of `src`, and every other value of `res` except `merge`, is passed on as
it is, white space included. -/
theorem blank_res_src_defaults (env : SearchEnv V R) (c : Context) (call : SearchCall V)
    (hget : c.Method = MethodGet) (hcall : call ∈ (SearchHandler env c).searchCalls) :
    (c.Query "res" = "" ∨ c.Query "res" = " " → call.resultType = "merged_by_type") ∧
    (c.Query "src" = "" ∨ c.Query "src" = " " → call.sourceType = "all") ∧
    (c.Query "res" ≠ "" → c.Query "res" ≠ " " → c.Query "res" ≠ "merge" →
      call.resultType = c.Query "res") ∧
    (c.Query "src" ≠ "" → c.Query "src" ≠ " " → call.sourceType = c.Query "src") := by
  obtain ⟨req, hreq, rfl⟩ := mem_searchCalls hcall
  rw [parseRequest_get hget] at hreq
  obtain ⟨hs, hr, -⟩ := parseGet_ok hreq
  obtain ⟨h1, h2, -⟩ := toCall_applyDefaults env.DefaultChannels req
  rw [h1, h2, hs, hr]
  refine ⟨?_, ?_, ?_, ?_⟩
  · intro h
    simp [h]
  · intro h
    simp [h]
  · intro a b d
    simp [a, b, d]
  · intro a b
    simp [a, b]

/-- C15 as amended, on `GET /api/search?kw=x&res=%20`: the engine is called
with the result type `merged_by_type` and the source type `all`. -/
theorem blank_res_src_defaults_witness :
    blankResCall ∈ (SearchHandler exampleEnv blankResRequest).searchCalls ∧
    blankResCall.resultType = "merged_by_type" ∧ blankResCall.sourceType = "all" :=
  ⟨by decide,
   (blank_res_src_defaults exampleEnv blankResRequest blankResCall rfl (by decide)).1
     (Or.inr (by decide)),
   (blank_res_src_defaults exampleEnv blankResRequest blankResCall rfl (by decide)).2.1
     (Or.inl (by decide))⟩

/-- C15 as stated fails on `GET /api/search?kw=x&res=%20%20&src=%09`: two
spaces and a tab are white space only, and the engine is called with the result
type of two spaces and the source type of a tab. -/
theorem wide_blank_counterexample :
    TrimSpace (wideBlankRequest.Query "res") = "" ∧
    TrimSpace (wideBlankRequest.Query "src") = "" ∧
    (SearchHandler exampleEnv wideBlankRequest).searchCalls.map
        (fun call => (call.resultType, call.sourceType)) = [("  ", "\t")] ∧
    ¬ ∀ call ∈ (SearchHandler exampleEnv wideBlankRequest).searchCalls,
        call.resultType = "merged_by_type" ∧ call.sourceType = "all" := by
  decide

/-- C16 as amended: the plugins of a call of the engine are `nil` or hold at
least one name when the request is a GET, and when the source type of the call
is `tg` or `all`; for a body with another source type the plugins of the call
are the decoded ones as they are, an empty list that is not `nil` included. -/
theorem plugins_nil_or_nonempty (env : SearchEnv V R) (c : Context) (call : SearchCall V)
    (hcall : call ∈ (SearchHandler env c).searchCalls) :
    (c.Method = MethodGet →
      call.plugins = none ∨ ∃ xs, call.plugins = some xs ∧ xs ≠ []) ∧
    (call.sourceType = "tg" ∨ call.sourceType = "all" →
      call.plugins = none ∨ ∃ xs, call.plugins = some xs ∧ xs ≠ []) ∧
    (∀ data req, c.Method ≠ MethodGet → c.RawData = .ok data →
      env.UnmarshalRequest data = .ok req → call.sourceType ≠ "tg" →
      call.sourceType ≠ "all" → call.plugins = req.Plugins) := by
  obtain ⟨req, hreq, rfl⟩ := mem_searchCalls hcall
  obtain ⟨h1, -, h3, -⟩ := toCall_applyDefaults env.DefaultChannels req
  have hshape : ∀ p : GoSlice, (p = none ∨ p.len = 0) ∨ ∃ xs, p = some xs ∧ xs ≠ [] := by
    intro p
    cases p with
    | none => exact Or.inl (Or.inl rfl)
    | some xs =>
      cases xs with
      | nil => exact Or.inl (Or.inr rfl)
      | cons x xs => exact Or.inr ⟨_, rfl, by simp⟩
  refine ⟨?_, ?_, ?_⟩
  · intro hget
    rw [parseRequest_get hget] at hreq
    have hp := (parseGet_ok hreq).2.2.2.1
    have hreqP : req.Plugins = none ∨ ∃ xs, req.Plugins = some xs ∧ xs ≠ [] := by
      rw [hp]
      split_ifs
      · exact parseListParam_nil_or_nonempty _
      · exact Or.inl rfl
    rw [h3]
    split_ifs
    · exact Or.inl rfl
    · exact Or.inl rfl
    · exact hreqP
  · intro hsrc
    rw [h1] at hsrc
    rw [h3]
    by_cases htg : req.SourceType = "tg"
    · simp [htg]
    · have hall : req.SourceType = "" ∨ req.SourceType = "all" := by
        by_cases h0 : req.SourceType = ""
        · exact Or.inl h0
        · rw [if_neg h0] at hsrc
          rcases hsrc with h | h
          · exact absurd h htg
          · exact Or.inr h
      rcases hshape req.Plugins with hp | hp
      · simp [htg, hall, hp]
      · rw [if_neg htg]
        split_ifs
        · exact Or.inl rfl
        · exact Or.inr hp
  · intro data req2 hm hraw hdec htg hall
    rw [parseRequest_body hm hraw hdec] at hreq
    cases hreq
    rw [h1] at htg hall
    rw [h3]
    by_cases h0 : req.SourceType = ""
    · simp [h0] at hall
    · rw [if_neg h0] at htg hall
      simp [htg, hall, h0]

/-- C16 as amended, on `GET /api/search?kw=x&src=custom&plugins=a`: the plugins
of the call hold one name. -/
theorem plugins_nil_or_nonempty_witness :
    customSrcCall ∈ (SearchHandler exampleEnv customSrcRequest).searchCalls ∧
    (customSrcCall.plugins = none ∨ ∃ xs, customSrcCall.plugins = some xs ∧ xs ≠ []) :=
  ⟨by decide,
   (plugins_nil_or_nonempty exampleEnv customSrcRequest customSrcCall (by decide)).1 rfl⟩

/-- C16 as stated fails on the POST body `{"src":"plugin","plugins":[]}`: the
engine is called with plugins that are empty and not `nil`. -/
theorem empty_plugins_counterexample :
    (SearchHandler pluginBodyEnv (postSearch emptyPluginsBody)).searchCalls =
      [emptyPluginsCall] ∧
    emptyPluginsCall.plugins = some [] ∧ emptyPluginsCall.plugins ≠ none := by
  decide

/-- The list of the specification is `nil` for the empty text and for a text
all of whose pieces are blank. -/
theorem specList_none (value : String)
    (h : value = "" ∨ ∀ piece ∈ Split value ',', TrimSpace piece = "") :
    specList value = none := by
  rcases h with h | h
  · subst h
    decide
  · unfold specList
    dsimp only
    rw [if_pos]
    rw [List.filter_eq_nil_iff]
    intro piece hpiece
    obtain ⟨p, hp, rfl⟩ := List.mem_map.mp hpiece
    simp [h p hp]

/-- Every token of the list of the specification is a trimmed piece that is not
empty. -/
theorem specList_tokens {value : String} {xs : List String} (h : specList value = some xs)
    {token : String} (htoken : token ∈ xs) :
    token ≠ "" ∧ ∃ piece ∈ Split value ',', token = TrimSpace piece := by
  unfold specList at h
  dsimp only at h
  split_ifs at h
  cases h
  obtain ⟨hmem, hne⟩ := List.mem_filter.mp htoken
  obtain ⟨p, hp, rfl⟩ := List.mem_map.mp hmem
  exact ⟨by simpa using hne, p, hp, rfl⟩

/-- C17: a GET that reaches the engine was parsed to a request whose channels,
plugins and cloud types are each the list of the specification for the value of
the parameter: the value split on `,`, each piece trimmed, the empty pieces
dropped, in order, and `nil` when nothing is left; so each is `nil` when the key
is absent, when the value is empty and when every piece is blank.  Every cloud
type of the call is not empty and neither starts nor ends with white space. -/
theorem list_params_parsed (env : SearchEnv V R) (c : Context) (call : SearchCall V)
    (hget : c.Method = MethodGet) (hcall : call ∈ (SearchHandler env c).searchCalls) :
    ∃ req, parseGet env c = .ok req ∧
      call = (applyDefaults env.DefaultChannels req).toCall ∧
      (∀ key parsed,
        (key, parsed) ∈ [("channels", req.Channels), ("plugins", req.Plugins),
          ("cloud_types", req.CloudTypes)] →
        parsed = specList (c.Query key) ∧
        (c.Has key = false ∨ c.Query key = "" ∨
            (∀ piece ∈ Split (c.Query key) ',', TrimSpace piece = "") →
          parsed = none)) ∧
      (∀ xs, call.cloudTypes = some xs → ∀ token ∈ xs,
        token ≠ "" ∧
        (∀ r, token.data.head? = some r → unicodeIsSpace r = false) ∧
        (∀ r, token.data.getLast? = some r → unicodeIsSpace r = false)) := by
  obtain ⟨req, hreq, rfl⟩ := mem_searchCalls hcall
  rw [parseRequest_get hget] at hreq
  obtain ⟨-, -, hch, hpl, -⟩ := parseGet_ok hreq
  have hct := parseGet_CloudTypes hreq
  have hHas : ∀ key, (if c.Has key then parseListParam (c.Query key) else none) =
      specList (c.Query key) := by
    intro key
    by_cases hk : c.Has key = true
    · rw [if_pos hk, parseListParam_eq_specList]
    · rw [if_neg hk, Query_of_not_Has (by simpa using hk)]
      decide
  have hnone : ∀ key, c.Has key = false ∨ c.Query key = "" ∨
      (∀ piece ∈ Split (c.Query key) ',', TrimSpace piece = "") →
      specList (c.Query key) = none := by
    intro key h
    rcases h with h | h | h
    · exact specList_none _ (Or.inl (Query_of_not_Has h))
    · exact specList_none _ (Or.inl h)
    · exact specList_none _ (Or.inr h)
  have hCh : req.Channels = specList (c.Query "channels") := by
    rw [hch, parseListParam_eq_specList]
  have hPl : req.Plugins = specList (c.Query "plugins") := by
    rw [hpl, hHas]
  have hCt : req.CloudTypes = specList (c.Query "cloud_types") := by
    rw [hct, hHas]
  refine ⟨req, hreq, rfl, ?_, ?_⟩
  · intro key parsed hmem
    simp only [List.mem_cons, Prod.mk.injEq, List.mem_singleton, List.not_mem_nil,
      or_false] at hmem
    rcases hmem with ⟨rfl, rfl⟩ | ⟨rfl, rfl⟩ | ⟨rfl, rfl⟩
    · exact ⟨hCh, fun h => hCh.trans (hnone _ h)⟩
    · exact ⟨hPl, fun h => hPl.trans (hnone _ h)⟩
    · exact ⟨hCt, fun h => hCt.trans (hnone _ h)⟩
  · intro xs hxs token htoken
    rw [(toCall_applyDefaults env.DefaultChannels req).2.2.2.2, hCt] at hxs
    obtain ⟨hne, piece, -, rfl⟩ := specList_tokens hxs htoken
    exact ⟨hne, TrimSpace_trimmed piece⟩

/-- C17 on
`GET /api/search?kw=x&channels=%20a,%20,b%20&plugins=&cloud_types=baidu,%20quark%20,`:
the channels are `a` and `b`, the plugins are `nil`, and the cloud types are
`baidu` and `quark`. -/
theorem list_params_parsed_witness :
    listsCall ∈ (SearchHandler exampleEnv listsRequest).searchCalls ∧
    ∃ req, parseGet exampleEnv listsRequest = .ok req ∧
      listsCall = (applyDefaults exampleEnv.DefaultChannels req).toCall ∧
      req.Channels = some ["a", "b"] ∧ req.Plugins = none ∧
      req.CloudTypes = some ["baidu", "quark"] :=
  ⟨by decide,
   (list_params_parsed exampleEnv listsRequest listsCall rfl (by decide)).elim
     (fun req h =>
       ⟨req, h.1, h.2.1,
        (h.2.2.1 "channels" req.Channels (by simp)).1.trans (by decide),
        (h.2.2.1 "plugins" req.Plugins (by simp)).1.trans (by decide),
        (h.2.2.1 "cloud_types" req.CloudTypes (by simp)).1.trans (by decide)⟩)⟩

/-- C18 as amended: the source type of a call of the engine is `all` when the
client's source type is empty or, in a GET, exactly one space, and is the
client's value otherwise; when the source type of the call is none of `tg`,
`plugin` and `all`, the plugins of the call are the client's as they are, and the
channels are the client's, or the default channels when the client has none. -/
theorem sourceType_passthrough (env : SearchEnv V R) (c : Context) (call : SearchCall V)
    (hcall : call ∈ (SearchHandler env c).searchCalls) :
    (c.Method = MethodGet →
      call.sourceType =
        if c.Query "src" = "" ∨ c.Query "src" = " " then "all" else c.Query "src") ∧
    (∀ data req, c.Method ≠ MethodGet → c.RawData = .ok data →
      env.UnmarshalRequest data = .ok req →
      call.sourceType = if req.SourceType = "" then "all" else req.SourceType) ∧
    (∀ req, parseRequest env c = .ok req →
      call.sourceType ≠ "tg" → call.sourceType ≠ "plugin" → call.sourceType ≠ "all" →
      call.sourceType = req.SourceType ∧ call.plugins = req.Plugins ∧
      call.channels = if req.Channels.len = 0 then env.DefaultChannels else req.Channels) := by
  obtain ⟨req, hreq, rfl⟩ := mem_searchCalls hcall
  obtain ⟨h1, -, h3, h4, -⟩ := toCall_applyDefaults env.DefaultChannels req
  refine ⟨?_, ?_, ?_⟩
  · intro hget
    rw [parseRequest_get hget] at hreq
    have hs := (parseGet_ok hreq).1
    rw [h1, hs]
    by_cases h : c.Query "src" = "" ∨ c.Query "src" = " "
    · rw [if_pos h]
      rfl
    · have h0 : c.Query "src" ≠ "" := fun e => h (Or.inl e)
      rw [if_neg h, if_neg h0]
  · intro data req2 hm hraw hdec
    rw [parseRequest_body hm hraw hdec] at hreq
    cases hreq
    exact h1
  · intro req2 hreq2 htg hpl hall
    rw [hreq] at hreq2
    cases hreq2
    rw [h1] at htg hpl hall ⊢
    rw [h3, h4]
    by_cases h0 : req.SourceType = ""
    · simp [h0] at hall
    · rw [if_neg h0] at htg hpl hall
      simp [h0, htg, hpl, hall]

/-- C18 as amended, on `GET /api/search?kw=x&src=custom&plugins=a`: the source
type `custom` is passed on with the client's plugins and the default channels. -/
theorem sourceType_passthrough_witness :
    customSrcCall ∈ (SearchHandler exampleEnv customSrcRequest).searchCalls ∧
    customSrcCall.sourceType = "custom" :=
  ⟨by decide,
   ((sourceType_passthrough exampleEnv customSrcRequest customSrcCall (by decide)).1 rfl).trans
     (by decide)⟩

/-- C18 as stated fails on `GET /api/search?kw=x&src=%20`: the client's source
type is one space, which is not empty, and the engine is called with the source
type `all`, not with the client's value. -/
theorem sourceType_blank_counterexample :
    blankSrcRequest.Query "src" = " " ∧ blankSrcRequest.Query "src" ≠ "" ∧
    (SearchHandler exampleEnv blankSrcRequest).searchCalls.map
        (fun call => call.sourceType) = ["all"] ∧
    ¬ ∀ call ∈ (SearchHandler exampleEnv blankSrcRequest).searchCalls,
        call.sourceType =
          if blankSrcRequest.Query "src" = "" then "all" else blankSrcRequest.Query "src" := by
  decide

/-- C19: when the source type of a call of the engine is not `plugin`, its
channels are the client's channel list when that list is not empty, and the
default channels when the client has no channels: in a GET the client's list is
the list of the specification for the `channels` parameter, which is `nil` when
the key is absent, when the value is empty and when every piece is blank; in a
body it is the decoded list. -/
theorem channels_or_default (env : SearchEnv V R) (c : Context) (call : SearchCall V)
    (hcall : call ∈ (SearchHandler env c).searchCalls) (hsrc : call.sourceType ≠ "plugin") :
    (c.Method = MethodGet →
      (call.channels =
        if specList (c.Query "channels") = none then env.DefaultChannels
        else specList (c.Query "channels")) ∧
      (c.Has "channels" = false ∨ c.Query "channels" = "" ∨
          (∀ piece ∈ Split (c.Query "channels") ',', TrimSpace piece = "") →
        call.channels = env.DefaultChannels)) ∧
    (∀ data req, c.Method ≠ MethodGet → c.RawData = .ok data →
      env.UnmarshalRequest data = .ok req →
      call.channels = if req.Channels.len = 0 then env.DefaultChannels else req.Channels) := by
  obtain ⟨req, hreq, rfl⟩ := mem_searchCalls hcall
  obtain ⟨h1, -, -, h4, -⟩ := toCall_applyDefaults env.DefaultChannels req
  have hp : req.SourceType ≠ "plugin" := by
    intro h
    rw [h1, h] at hsrc
    simp at hsrc
  rw [if_neg hp] at h4
  refine ⟨?_, ?_⟩
  · intro hget
    rw [parseRequest_get hget] at hreq
    have hch := (parseGet_ok hreq).2.2.1
    rw [parseListParam_eq_specList] at hch
    have hlen : req.Channels.len = 0 ↔ specList (c.Query "channels") = none := by
      rw [hch]
      rcases parseListParam_nil_or_nonempty (c.Query "channels") with h | ⟨xs, h, hxs⟩
      · rw [parseListParam_eq_specList] at h
        simp [h, GoSlice.len]
      · rw [parseListParam_eq_specList] at h
        simp [h, GoSlice.len, hxs]
    have hmain : (applyDefaults env.DefaultChannels req).toCall.channels =
        if specList (c.Query "channels") = none then env.DefaultChannels
        else specList (c.Query "channels") := by
      rw [h4]
      by_cases h : specList (c.Query "channels") = none
      · rw [if_pos (hlen.mpr h), if_pos h]
      · rw [if_neg (fun e => h (hlen.mp e)), if_neg h, hch]
    refine ⟨hmain, ?_⟩
    intro h
    have hnone : specList (c.Query "channels") = none := by
      rcases h with h | h | h
      · exact specList_none _ (Or.inl (Query_of_not_Has h))
      · exact specList_none _ (Or.inl h)
      · exact specList_none _ (Or.inr h)
    rw [hmain, if_pos hnone]
  · intro data req2 hm hraw hdec
    rw [parseRequest_body hm hraw hdec] at hreq
    cases hreq
    exact h4

/-- C19 on `GET /api/search?kw=x&src=tg&plugins=a,b`, which has no channels:
the engine is called with the default channels. -/
theorem channels_or_default_witness :
    tgCall ∈ (SearchHandler exampleEnv tgRequest).searchCalls ∧
    tgCall.channels = exampleEnv.DefaultChannels :=
  ⟨by decide,
   ((channels_or_default exampleEnv tgRequest tgCall (by decide) (by decide)).1 rfl).2
     (Or.inl (by decide))⟩

/-- C20: the step of lines 164–192, for any default channels, gives the same
request when it is applied to its own result, and it keeps the keyword, the
concurrency, the refresh flag, the cloud types and the `Ext` of the request. -/
theorem applyDefaults_idempotent (dflt : GoSlice) (req : SearchRequest V) :
    applyDefaults dflt (applyDefaults dflt req) = applyDefaults dflt req ∧
    (applyDefaults dflt req).Keyword = req.Keyword ∧
    (applyDefaults dflt req).Concurrency = req.Concurrency ∧
    (applyDefaults dflt req).ForceRefresh = req.ForceRefresh ∧
    (applyDefaults dflt req).CloudTypes = req.CloudTypes ∧
    (applyDefaults dflt req).Ext = req.Ext := by
  refine ⟨?_, ?_, ?_, ?_, ?_, ?_⟩
  · rw [applyDefaults_eq dflt (applyDefaults dflt req), applyDefaults_eq dflt req]
    dsimp only
    have hst : (if req.SourceType = "" then "all" else req.SourceType) ≠ "" := by
      split_ifs with h
      · decide
      · exact h
    congr 1
    · by_cases hp : req.SourceType = "plugin"
      · simp [hp]
      · have hp2 : (if req.SourceType = "" then "all" else req.SourceType) ≠ "plugin" := by
          split_ifs
          · decide
          · exact hp
        rw [if_neg hp2, if_neg hp]
        by_cases hl : req.Channels.len = 0
        · simp only [hl, if_true, ite_self]
        · simp only [hl, if_false]
    · by_cases h1 : req.ResultType = "" ∨ req.ResultType = "merge"
      · simp [h1]
      · have h2 : req.ResultType ≠ "" := fun e => h1 (Or.inl e)
        have h3 : req.ResultType ≠ "merge" := fun e => h1 (Or.inr e)
        simp [h2, h3]
    · rw [if_neg hst]
    · by_cases htg : req.SourceType = "tg"
      · simp [htg]
      · by_cases h0 : req.SourceType = ""
        · by_cases hpl : req.Plugins = none ∨ req.Plugins.len = 0
          · simp [h0, hpl]
          · simp [h0, hpl]
        · by_cases hall : req.SourceType = "all"
          · by_cases hpl : req.Plugins = none ∨ req.Plugins.len = 0
            · simp [hall, hpl]
            · simp [hall, hpl]
          · simp [htg, h0, hall]
  all_goals rw [applyDefaults_eq]

end SearchClaimsMore

/-! ## Properties of `DoubanProxyHandler` -/

/-- The `type` and the `tag` of the catalog query are the resolved ones, a key
being left out when its value is empty. -/
theorem catalogQuery_lookup (c : Context) :
    (catalogQuery c).lookup "type" =
      (if (resolveCategory (c.Query "type") (c.Query "tag") (c.Query "cat")).1 = "" then none
        else some (resolveCategory (c.Query "type") (c.Query "tag") (c.Query "cat")).1) ∧
    (catalogQuery c).lookup "tag" =
      (if (resolveCategory (c.Query "type") (c.Query "tag") (c.Query "cat")).2 = "" then none
        else some (resolveCategory (c.Query "type") (c.Query "tag") (c.Query "cat")).2) := by
  unfold catalogQuery
  dsimp only
  generalize resolveCategory (c.Query "type") (c.Query "tag") (c.Query "cat") = r
  by_cases ht : r.1 = "" <;> by_cases hg : r.2 = "" <;>
    by_cases hs : c.Query "search_text" = "" <;>
    simp [ht, hg, hs, Values.Set, Values.lookup]

/-- C11: in the catalog-search mode, a request with neither `type` nor `tag`
forwards `movie` and `热门` for `cat=hot` and for `cat=movie`, `tv` and `热门` for
`cat=tv`, `tv` and `综艺` for `cat=variety`, and neither key for any other `cat`;
a request with `type` or `tag` forwards exactly the client's `type` and `tag`, a
key being left out when the client's value is empty, whatever `cat` is.  The
outbound request carries this query. -/
theorem catalog_type_tag (c : Context) :
    (c.Query "type" = "" → c.Query "tag" = "" →
      (c.Query "cat" = "hot" →
        (catalogQuery c).lookup "type" = some "movie" ∧
        (catalogQuery c).lookup "tag" = some "热门") ∧
      (c.Query "cat" = "movie" →
        (catalogQuery c).lookup "type" = some "movie" ∧
        (catalogQuery c).lookup "tag" = some "热门") ∧
      (c.Query "cat" = "tv" →
        (catalogQuery c).lookup "type" = some "tv" ∧
        (catalogQuery c).lookup "tag" = some "热门") ∧
      (c.Query "cat" = "variety" →
        (catalogQuery c).lookup "type" = some "tv" ∧
        (catalogQuery c).lookup "tag" = some "综艺") ∧
      (c.Query "cat" ≠ "hot" → c.Query "cat" ≠ "movie" → c.Query "cat" ≠ "tv" →
        c.Query "cat" ≠ "variety" →
        (catalogQuery c).lookup "type" = none ∧ (catalogQuery c).lookup "tag" = none)) ∧
    (c.Query "type" ≠ "" ∨ c.Query "tag" ≠ "" →
      (catalogQuery c).lookup "type" =
        (if c.Query "type" = "" then none else some (c.Query "type")) ∧
      (catalogQuery c).lookup "tag" =
        (if c.Query "tag" = "" then none else some (c.Query "tag"))) ∧
    (∀ env : DoubanEnv, suggestMode c = false →
      ∀ req ∈ (DoubanProxyHandler env c).outbound,
        req.target =
          "https://movie.douban.com/j/search_subjects?" ++ env.Encode (catalogQuery c)) := by
  obtain ⟨hT, hG⟩ := catalogQuery_lookup c
  refine ⟨?_, ?_, ?_⟩
  · intro ht hg
    refine ⟨?_, ?_, ?_, ?_, ?_⟩
    · intro hc
      rw [hT, hG]
      simp [resolveCategory, ht, hg, hc]
    · intro hc
      rw [hT, hG]
      simp [resolveCategory, ht, hg, hc]
    · intro hc
      rw [hT, hG]
      simp [resolveCategory, ht, hg, hc]
    · intro hc
      rw [hT, hG]
      simp [resolveCategory, ht, hg, hc]
    · intro h1 h2 h3 h4
      rw [hT, hG]
      simp [resolveCategory, ht, hg, h1, h2, h3, h4]
  · intro h
    have hres : resolveCategory (c.Query "type") (c.Query "tag") (c.Query "cat") =
        (c.Query "type", c.Query "tag") := by
      unfold resolveCategory
      rw [if_neg]
      intro hb
      rcases h with h | h
      · exact h hb.1
      · exact h hb.2
    rw [hT, hG, hres]
    exact ⟨rfl, rfl⟩
  · intro env hmode req hreq
    have htarget : doubanTarget env c =
        "https://movie.douban.com/j/search_subjects?" ++ env.Encode (catalogQuery c) := by
      unfold doubanTarget
      rw [hmode]
      rfl
    unfold DoubanProxyHandler forwardDouban at hreq
    rw [htarget] at hreq
    split at hreq
    · simp at hreq
    · dsimp only at hreq
      split at hreq
      · simp only [List.mem_singleton] at hreq
        rw [hreq]
        rfl
      · split at hreq
        · simp only [List.mem_singleton] at hreq
          rw [hreq]
          rfl
        · split_ifs at hreq <;>
          · simp only [List.mem_singleton] at hreq
            rw [hreq]
            rfl

/-- C11 on `cat=tv` alone and on `type=movie&tag=文艺&cat=tv`: the first forwards
`type=tv` and `tag=热门`, the second the client's `type` and `tag`. -/
theorem catalog_type_tag_witness :
    ((catalogQuery catTvRequest).lookup "type" = some "tv" ∧
      (catalogQuery catTvRequest).lookup "tag" = some "热门") ∧
    (catalogQuery explicitTypeRequest).lookup "type" = some "movie" ∧
    (catalogQuery explicitTypeRequest).lookup "tag" = some "文艺" :=
  ⟨((catalog_type_tag catTvRequest).1 (by decide) (by decide)).2.2.1 (by decide),
   ((catalog_type_tag explicitTypeRequest).2.1 (Or.inl (by decide))).1.trans (by decide),
   ((catalog_type_tag explicitTypeRequest).2.1 (Or.inl (by decide))).2.trans (by decide)⟩

/-- The outcome of the handler once the request is built, the upstream has
answered and the reply is read. -/
theorem DoubanProxyHandler_of_reply (env : DoubanEnv) (c : Context) (resp : UpstreamResponse)
    (hnew : env.NewRequest "GET" (doubanTarget env c) = none)
    (hdo : env.Do (doubanRequest (doubanTarget env c)) = .ok resp)
    (hread : resp.ReadError = none) :
    DoubanProxyHandler env c =
      if resp.StatusCode ≠ 200 then
        { outbound := [doubanRequest (doubanTarget env c)], status := 502,
          body := .error 502 ("豆瓣响应状态异常: " ++ resp.Status) }
      else
        { outbound := [doubanRequest (doubanTarget env c)], status := 200,
          body := .data "application/json; charset=utf-8" resp.Body } := by
  unfold DoubanProxyHandler forwardDouban
  simp only [hnew, hdo, hread]

/-- C14: in the suggest mode and in the catalog-search mode alike, when the
upstream has answered and its reply is read, a status other than 200 is answered
502 with the error envelope of code 502 whose message ends with the status line
of the upstream, and a status 200 is answered 200 with the content type
`application/json; charset=utf-8` and a body that is the body of the upstream,
byte for byte. -/
theorem douban_reply_passed_on (env : DoubanEnv) (c : Context) (resp : UpstreamResponse)
    (hnew : env.NewRequest "GET" (doubanTarget env c) = none)
    (hdo : env.Do (doubanRequest (doubanTarget env c)) = .ok resp)
    (hread : resp.ReadError = none) :
    (resp.StatusCode ≠ 200 →
      (DoubanProxyHandler env c).status = 502 ∧
      (DoubanProxyHandler env c).body = .error 502 ("豆瓣响应状态异常: " ++ resp.Status)) ∧
    (resp.StatusCode = 200 →
      (DoubanProxyHandler env c).status = 200 ∧
      (DoubanProxyHandler env c).body = .data "application/json; charset=utf-8" resp.Body) := by
  rw [DoubanProxyHandler_of_reply env c resp hnew hdo hread]
  refine ⟨?_, ?_⟩
  · intro h
    rw [if_pos h]
    exact ⟨rfl, rfl⟩
  · intro h
    rw [if_neg (not_not.mpr h)]
    exact ⟨rfl, rfl⟩

/-- C14 on a suggest request whose upstream answers `503 Service Unavailable`
and on a catalog request whose upstream answers `200 OK`. -/
theorem douban_reply_passed_on_witness :
    ((DoubanProxyHandler (exampleDoubanEnv unavailableReply) suggestRequest).status = 502 ∧
      (DoubanProxyHandler (exampleDoubanEnv unavailableReply) suggestRequest).body =
        .error 502 ("豆瓣响应状态异常: " ++ unavailableReply.Status)) ∧
    (DoubanProxyHandler (exampleDoubanEnv okReply) catTvRequest).status = 200 ∧
    (DoubanProxyHandler (exampleDoubanEnv okReply) catTvRequest).body =
      .data "application/json; charset=utf-8" okReply.Body :=
  ⟨(douban_reply_passed_on (exampleDoubanEnv unavailableReply) suggestRequest unavailableReply
      rfl rfl rfl).1 (by decide),
   (douban_reply_passed_on (exampleDoubanEnv okReply) catTvRequest okReply rfl rfl rfl).2 rfl⟩

/-! ## More properties of `ImageProxyHandler` -/

/-- C12: a request with no target, with a target that is not parsed, or with
a target that is parsed to a URL that is not absolute, is answered 400 and no
request goes out; the target is the parameter `u` when it is not empty and the
parameter `url` otherwise; a URL that is not absolute is answered 400 also when
its host passes the allowlist, and never 403. -/
theorem image_bad_target_400 (env : ImageEnv) (c : Context) :
    imageTarget c = (if c.Query "u" ≠ "" then c.Query "u" else c.Query "url") ∧
    ((c.Query "u" = "" ∧ c.Query "url" = "") → imageTarget c = "") ∧
    (imageTarget c = "" → ImageProxyHandler env c = bareStatus 400) ∧
    (∀ err, env.Parse (imageTarget c) = .error err →
      ImageProxyHandler env c = bareStatus 400) ∧
    (∀ u, env.Parse (imageTarget c) = .ok u → u.IsAbs = false →
      ImageProxyHandler env c = bareStatus 400) ∧
    (bareStatus 400).outbound = [] ∧ (bareStatus 400).status = 400 ∧
    (bareStatus 400).status ≠ 403 := by
  refine ⟨?_, ?_, ?_, ?_, ?_, rfl, rfl, by decide⟩
  · unfold imageTarget
    dsimp only
    by_cases h : c.Query "u" = ""
    · simp [h]
    · simp [h]
  · rintro ⟨h1, h2⟩
    unfold imageTarget
    dsimp only
    rw [if_pos h1, h2]
  · intro h
    unfold ImageProxyHandler
    dsimp only
    rw [if_pos h]
  · intro err h
    unfold ImageProxyHandler
    dsimp only
    split_ifs
    · rfl
    · rw [h]
  · intro u h habs
    unfold ImageProxyHandler
    dsimp only
    split_ifs
    · rfl
    · rw [h]
      simp [habs]

/-- C12 on `GET /img?u=/view/p1.jpg`, a relative URL, on a request without a
target, and on a target the parser rejects: each is answered 400. -/
theorem image_bad_target_400_witness :
    ImageProxyHandler exampleImageEnv (imageRequest "/view/p1.jpg") = bareStatus 400 ∧
    ImageProxyHandler exampleImageEnv (imageRequest "") = bareStatus 400 ∧
    ImageProxyHandler exampleImageEnv (imageRequest "http://[::1") = bareStatus 400 :=
  ⟨(image_bad_target_400 exampleImageEnv (imageRequest "/view/p1.jpg")).2.2.2.2.1
      { Path := "/view/p1.jpg" } rfl rfl,
   (image_bad_target_400 exampleImageEnv (imageRequest "")).2.2.1 (by decide),
   (image_bad_target_400 exampleImageEnv (imageRequest "http://[::1")).2.2.2.1
      "parse: invalid URL" rfl⟩

/-! ## Properties of the health check -/

/-- C13: with the plugin subsystem disabled the body of the health check has
the keys `status`, `plugins_enabled`, `channels` and `channels_count` and no
other, so neither `plugin_count` nor `plugins`, whatever plugins the plugin
manager holds; and, enabled or not, `channels_count` is the length of the list
under `channels`, which is the list of default channels. -/
theorem health_disabled_keys (env : HealthEnv) :
    (env.AsyncPluginEnabled = false →
      (healthHandler env).body.keys =
        ["status", "plugins_enabled", "channels", "channels_count"] ∧
      "plugin_count" ∉ (healthHandler env).body.keys ∧
      "plugins" ∉ (healthHandler env).body.keys ∧
      (healthHandler env).body.lookup "plugin_count" = none ∧
      (healthHandler env).body.lookup "plugins" = none) ∧
    (healthHandler env).body.lookup "channels" = some (.strings env.DefaultChannels) ∧
    (healthHandler env).body.lookup "channels_count" =
      some (.int (GoSlice.len env.DefaultChannels)) ∧
    (healthHandler env).status = 200 := by
  refine ⟨?_, ?_, ?_, rfl⟩
  · intro h
    simp [healthHandler, h, H.keys, H.lookup]
  · cases h : env.AsyncPluginEnabled <;> simp [healthHandler, h, H.set, H.lookup]
  · cases h : env.AsyncPluginEnabled <;> simp [healthHandler, h, H.set, H.lookup]

/-- C13 on a disabled plugin subsystem whose plugin manager holds two plugins:
the body has the four keys and no plugin key. -/
theorem health_disabled_keys_witness :
    (healthHandler disabledHealthEnv).body.keys =
      ["status", "plugins_enabled", "channels", "channels_count"] ∧
    "plugin_count" ∉ (healthHandler disabledHealthEnv).body.keys ∧
    "plugins" ∉ (healthHandler disabledHealthEnv).body.keys ∧
    (healthHandler disabledHealthEnv).body.lookup "plugin_count" = none ∧
    (healthHandler disabledHealthEnv).body.lookup "plugins" = none :=
  (health_disabled_keys disabledHealthEnv).1 rfl

end Pansou
